import Mathlib

/-! Formal model of the plugin manager window of
`king_phisher/client/windows/plugin_manager.py`.

The persisted configuration (`plugins.installed`, `plugins.enabled`), the
GTK tree store rows, the module error dictionary and the on-disk plugin
artifacts are embedded as Lean data.  GUI dialogs, status bar pushes and
log calls are recorded as events.  External collaborators (the plugin
registry `self.application.plugin_manager`, the catalog transport, the
catalog registry) are not part of this repository's source file; their
behaviour is passed in as explicit oracle parameters, and the registry's
bookkeeping of loaded/enabled plugins follows the collaborator contract of
the specification (section 6). -/

namespace PluginManagerModel

/-- Result of a Python call: a normal return or a raised exception. -/
inductive PyResult (α : Type) where
  | ok (a : α)
  | exn (msg : String)
deriving DecidableEq, Repr

/-- Python dict lookup over an association list kept in insertion order. -/
def alookup {β : Type} : List (String × β) → String → Option β
  | [], _ => none
  | (k, v) :: rest, key => if k = key then some v else alookup rest key

/-- Python dict assignment `d[key] = val`: update in place if the key is
present, otherwise append (dicts preserve insertion order). -/
def aset {β : Type} : List (String × β) → String → β → List (String × β)
  | [], key, val => [(key, val)]
  | (k, v) :: rest, key, val =>
    if k = key then (k, val) :: rest else (k, v) :: aset rest key val

/-- Python `del d[key]` once the key is known to be present. -/
def adel {β : Type} : List (String × β) → String → List (String × β)
  | [], _ => []
  | (k, v) :: rest, key => if k = key then adel rest key else (k, v) :: adel rest key

/-- Fold a sequence of dict assignments into a dict. -/
def asetAll {β : Type} : List (String × β) → List (String × β) → List (String × β)
  | d, [] => d
  | d, (k, v) :: rest => asetAll (aset d k v) rest

/-- Python `dict.get(key)` on a dict whose values may be `None`: an absent
key and a stored `None` are both falsy, so both collapse to `none`. -/
def agetv {β : Type} (d : List (String × Option β)) (key : String) : Option β :=
  match alookup d key with
  | some v => v
  | none => none

/-- Python `list.remove(x)`: drop the first occurrence; the caller decides
what happens when `x` is absent (CPython raises `ValueError`). -/
def removeFirst : List String → String → List String
  | [], _ => []
  | y :: rest, x => if y = x then rest else y :: removeFirst rest x

/-- The value of `self.config['plugins.installed'][plugin_id]`: the source
stores either `None` (local install of unknown origin, modelled by the
surrounding `Option` being a stored `none`) or a dict with these keys. -/
structure InstallSrc where
  catalog_id : String
  repo_id : String
  plugin_id : String
deriving DecidableEq, Repr

/-- A handle from `pm.loaded_plugins`, per the collaborator contract:
name, title, version and the compatibility verdict. -/
structure PluginHandle where
  name : String
  title : String
  version : String
  is_compatible : Bool
deriving DecidableEq, Repr

/-- The `type` column of a tree store row (`_ROW_TYPE_*` constants). -/
inductive RowType where
  | plugin
  | repository
  | catalog
deriving DecidableEq, Repr

/-- Constant `_LOCAL_REPOSITORY_ID`. -/
def LOCAL_REPOSITORY_ID : String := "local"

/-- Constant `_LOCAL_REPOSITORY_TITLE`. -/
def LOCAL_REPOSITORY_TITLE : String := "[Locally Installed]"

/-- One tree store row, following the `_named_model` namedtuple.  The GTK
store keeps `installed`/`enabled` in boolean columns, so a Python `None`
written there reads back as `False`. -/
structure NamedRow where
  id : String
  installed : Bool
  enabled : Bool
  title : String
  compatibility : Option String
  version : Option String
  visible_enabled : Bool
  visible_installed : Bool
  sensitive_installed : Bool
  type : RowType
deriving DecidableEq, Repr

/-- A node of the `Gtk.TreeStore`: a row together with its child rows. -/
inductive Node : Type where
  | mk (row : NamedRow) (children : List Node)

/-- The row stored at a tree node. -/
def Node.row : Node → NamedRow
  | Node.mk r _ => r

/-- The children of a tree node. -/
def Node.children : Node → List Node
  | Node.mk _ c => c

/-- Resolve a tree path (list of child indices, root forest first). -/
def getNode : List Node → List Nat → Option Node
  | _, [] => none
  | ns, [i] => ns[i]?
  | ns, i :: j :: rest =>
    match ns[i]? with
    | some n => getNode n.children (j :: rest)
    | none => none

/-- Apply `f` to the row stored at path `p` (`_set_model_item`). -/
def modifyRowAt : List Node → List Nat → (NamedRow → NamedRow) → List Node
  | ns, [], _ => ns
  | ns, [i], f =>
    match ns[i]? with
    | some n => ns.set i (Node.mk (f n.row) n.children)
    | none => ns
  | ns, i :: j :: rest, f =>
    match ns[i]? with
    | some n => ns.set i (Node.mk n.row (modifyRowAt n.children (j :: rest) f))
    | none => ns

/-- Delete the node at path `p` (`del self._model[model_path]`). -/
def removeAt : List Node → List Nat → List Node
  | ns, [] => ns
  | ns, [i] => ns.eraseIdx i
  | ns, i :: j :: rest =>
    match ns[i]? with
    | some n => ns.set i (Node.mk n.row (removeAt n.children (j :: rest)))
    | none => ns

/-- The id of the row at a path, defaulting to the empty string. -/
def rowIdAt (ns : List Node) (p : List Nat) : String :=
  match getNode ns p with
  | some n => n.row.id
  | none => ""

/-- The title of the row at a path. -/
def rowTitleAt (ns : List Node) (p : List Nat) : Option String :=
  (getNode ns p).map fun n => n.row.title

/-- The id of the parent row of the node at `p` (`model_row.parent`);
`none` when the node is a top-level row. -/
def parentRowId (ns : List Node) (p : List Nat) : Option String :=
  match p.dropLast with
  | [] => none
  | q => (getNode ns q).map fun n => n.row.id

mutual

/-- Every row of a tree node, the node's own row first. -/
def allRowsNode : Node → List NamedRow
  | Node.mk r cs => r :: allRowsForest cs

/-- Every row of a forest of tree nodes. -/
def allRowsForest : List Node → List NamedRow
  | [] => []
  | n :: rest => allRowsNode n ++ allRowsForest rest

end

/-- Source function `_get_plugin_model_parents`: the rows of `plugin_model.parent` and
`plugin_model.parent.parent`; `none` models the `TypeError` Python raises
when a parent is missing. -/
def get_plugin_model_parents (tree : List Node) (p : List Nat) :
    Option (NamedRow × NamedRow) :=
  match getNode tree p.dropLast, getNode tree p.dropLast.dropLast with
  | some repoNode, some catalogNode => some (repoNode.row, catalogNode.row)
  | _, _ => none

/-- Observable effects of the window code: status bar pushes, dialogs
(with the user's answer for yes/no questions), log calls, and the calls
made into the external plugin registry collaborator. -/
inductive Event where
  | statusBar (msg : String)
  | dialogError (title : String) (msg : String)
  | dialogYesNo (title : String) (msg : String) (answer : Bool)
  | logDebug (msg : String)
  | logInfo (msg : String)
  | logWarning (msg : String)
  | regEnableCall (id : String)
  | regDisableCall (id : String)
  | regUnloadCall (id : String)
  | regLoadCall (id : String)
  | regLoadAllCall
deriving DecidableEq, Repr

/-- The mutable state the claims are about: the persisted configuration
(`plugins.installed` = Installation Record, `plugins.enabled` = Enabled
Set), the plugin registry collaborator's loaded/enabled bookkeeping, the
window's `_module_errors` dict, the tree store, and the on-disk plugin
artifacts (`diskPkg`: ids with a `<id>/__init__.py` package, `diskFile`:
ids with a single `<id>.py` file). -/
structure WindowState where
  installed : List (String × Option InstallSrc)
  enabled : List String
  pmLoaded : List (String × PluginHandle)
  pmEnabled : List String
  moduleErrors : List (String × String)
  tree : List Node
  diskPkg : List String
  diskFile : List String

/-- Outcome of `pm.load_all(on_error=...)`: the registry collaborator's
resulting loaded plugins and enabled set, and the `(name, error)` pairs
reported through the `on_error` callback (`_on_plugin_load_error`). -/
structure LoadAllResult where
  loaded : List (String × PluginHandle)
  errors : List (String × String)
  regEnabled : List String

/-- Outcome of the `catalog_plugins.install_plugin` transport call. -/
inductive InstallResult where
  | ok
  | connectionError
  | otherError
deriving DecidableEq, Repr

/-- Distinct return points of `signal_renderer_toggled_enable`. -/
inductive EnableOutcome where
  | badPath
  | notPlugin
  | notLoaded
  | loadErrorPresent
  | toggledOff
  | toggledOffRaised (msg : String)
  | incompatible
  | registryRefused
  | enabledOk
deriving DecidableEq, Repr

/-- Distinct return points of `signal_renderer_toggled_install`.  The
boolean on the install outcomes records whether the replace flow removed
the previously installed copy before the install attempt. -/
inductive InstallOutcome where
  | badPath (msg : String)
  | uninstallDeclined
  | uninstallRaised (msg : String)
  | uninstallCompleted (removed : Bool)
  | replaceDeclined
  | replaceRemoveFailed
  | replaceRaised (msg : String)
  | downloadConnError (replacedOld : Bool)
  | installFailed (replacedOld : Bool)
  | installedOk (replacedOld : Bool)
deriving DecidableEq, Repr

/-- Distinct return points of the reload flow for a plugin row. -/
inductive ReloadOutcome where
  | badPath
  | notInstalled
  | unsupportedRow
  | loadFailed
  | loadedOk
deriving DecidableEq, Repr

/-- Source function `_disable_plugin` (source lines 571-578).  Calls `pm.disable`, then
`self.config['plugins.enabled'].remove(named_row.id)` — which raises
`ValueError` when the id is absent — then clears the row's enabled flag
(the `is_path` variants write the same field either through the path or
through the live row, so they are modelled identically). -/
def disable_plugin (st : WindowState) (p : List Nat) :
    WindowState × List Event × PyResult Unit :=
  match getNode st.tree p with
  | none => (st, [], PyResult.exn ("invalid path"))
  | some node =>
    let named_row := node.row
    let st1 := { st with pmEnabled := removeFirst st.pmEnabled named_row.id }
    if named_row.id ∈ st1.enabled then
      let st2 := { st1 with enabled := removeFirst st1.enabled named_row.id }
      let st3 := { st2 with
        tree := modifyRowAt st2.tree p (fun r => { r with enabled := false }) }
      (st3, [Event.regDisableCall named_row.id], PyResult.ok ())
    else
      (st1, [Event.regDisableCall named_row.id], PyResult.exn ("ValueError"))

/-- Tail of `_uninstall_plugin` after the on-disk artifact was removed
(source lines 617-625): unload from the registry, delete the Installation
Record entry (Python would raise `KeyError` on an absent key), then drop
the row if its parent is the local pseudo-repository, else clear its
installed flag. -/
def uninstallFinish (st : WindowState) (p : List Nat) (plugin_id : String) :
    WindowState × List Event × PyResult Bool :=
  let st1 := { st with
    pmLoaded := adel st.pmLoaded plugin_id,
    pmEnabled := removeFirst st.pmEnabled plugin_id }
  if (alookup st1.installed plugin_id).isSome then
    let st2 := { st1 with installed := adel st1.installed plugin_id }
    let parentIsLocal : Bool := decide (parentRowId st2.tree p = some LOCAL_REPOSITORY_ID)
    let st3 : WindowState :=
      if parentIsLocal = true then { st2 with tree := removeAt st2.tree p }
      else { st2 with
        tree := modifyRowAt st2.tree p (fun r => { r with installed := false }) }
    (st3,
      [Event.regUnloadCall plugin_id,
        Event.logInfo ("successfully uninstalled plugin " ++ plugin_id)],
      PyResult.ok true)
  else
    (st1, [Event.regUnloadCall plugin_id], PyResult.exn ("KeyError"))

/-- Source function `_uninstall_plugin` (source lines 607-625): remove the package
directory or the single `<id>.py` file; when neither exists, log a
warning and return `False` without touching anything else. -/
def uninstall_plugin (st : WindowState) (p : List Nat) :
    WindowState × List Event × PyResult Bool :=
  match getNode st.tree p with
  | none => (st, [], PyResult.exn ("invalid path"))
  | some node =>
    let plugin_id := node.row.id
    if plugin_id ∈ st.diskPkg then
      uninstallFinish { st with diskPkg := removeFirst st.diskPkg plugin_id } p plugin_id
    else if plugin_id ∈ st.diskFile then
      uninstallFinish { st with diskFile := removeFirst st.diskFile plugin_id } p plugin_id
    else
      (st,
        [Event.logWarning ("failed to find plugin " ++ plugin_id ++ " on disk for removal")],
        PyResult.ok false)

/-- Source function `signal_renderer_toggled_enable` (source lines 506-526): guards on row
type and registry membership, rejects when a module error is recorded,
toggles off through `_disable_plugin` when the row is enabled, otherwise
checks compatibility, asks the registry to enable, and on acceptance
appends the id to the Enabled Set. -/
def signal_renderer_toggled_enable (st : WindowState) (p : List Nat) (regOk : Bool) :
    WindowState × List Event × EnableOutcome :=
  match getNode st.tree p with
  | none => (st, [], EnableOutcome.badPath)
  | some node =>
    let named_row := node.row
    if named_row.type ≠ RowType.plugin then (st, [], EnableOutcome.notPlugin)
    else
      match alookup st.pmLoaded named_row.id with
      | none => (st, [], EnableOutcome.notLoaded)
      | some handle =>
        if (alookup st.moduleErrors named_row.id).isSome then
          (st,
            [Event.dialogError ("Can Not Enable Plugin")
              "Can not enable a plugin which failed to load."],
            EnableOutcome.loadErrorPresent)
        else if named_row.enabled then
          match disable_plugin st p with
          | (st1, ev1, PyResult.exn e) => (st1, ev1, EnableOutcome.toggledOffRaised e)
          | (st1, ev1, PyResult.ok _) => (st1, ev1, EnableOutcome.toggledOff)
        else if handle.is_compatible = false then
          (st,
            [Event.dialogError ("Incompatible Plugin") "This plugin is not compatible."],
            EnableOutcome.incompatible)
        else if regOk = false then
          (st, [Event.regEnableCall named_row.id], EnableOutcome.registryRefused)
        else
          let st1 := { st with pmEnabled := st.pmEnabled ++ [named_row.id] }
          let st2 := { st1 with
            tree := modifyRowAt st1.tree p (fun r => { r with enabled := true }) }
          let st3 := { st2 with enabled := st2.enabled ++ [named_row.id] }
          (st3, [Event.regEnableCall named_row.id], EnableOutcome.enabledOk)

/-- Index of the first child whose row id matches (the `next(...)`
generator in `_remove_matching_plugin`). -/
def findChildIdx : List Node → String → Option Nat
  | [], _ => none
  | rm :: rest, repoId =>
    if rm.row.id = repoId then some 0
    else (findChildIdx rest repoId).map (· + 1)

/-- The catalog scan of `_remove_matching_plugin` (source lines 583-591):
walk the top-level rows; at the first catalog matching the old source's
catalog id, look up the repository child (stopping with `None` when it is
missing — the Python `break`); a `None` source selects the local
pseudo-repository row itself. -/
def findRepoModelAux : List Node → Nat → Option InstallSrc → Option (List Nat)
  | [], _, _ => none
  | c :: rest, i, some src =>
    if c.row.id = src.catalog_id then
      match findChildIdx c.children src.repo_id with
      | some j => some [i, j]
      | none => none
    else findRepoModelAux rest (i + 1) (some src)
  | c :: rest, i, none =>
    if c.row.id = LOCAL_REPOSITORY_ID then some [i]
    else findRepoModelAux rest (i + 1) none

/-- Entry point for the catalog/repository scan of `_remove_matching_plugin`. -/
def findRepoModel (tree : List Node) (plugin_src : Option InstallSrc) :
    Option (List Nat) :=
  findRepoModelAux tree 0 plugin_src

/-- The plugin scan of `_remove_matching_plugin` (source lines 594-602):
iterate the repository row's children; on the first id match, disable the
row if its enabled flag is set, call `_uninstall_plugin` (whose boolean
result the source ignores) and return `True`; exceptions propagate. -/
def removeMatchingLoop (st : WindowState) (repoPath : List Nat) :
    List Node → Nat → String → WindowState × List Event × PyResult Bool
  | [], _, _ => (st, [], PyResult.ok false)
  | plugin_model :: rest, k, named_row_id =>
    if plugin_model.row.id ≠ named_row_id then
      removeMatchingLoop st repoPath rest (k + 1) named_row_id
    else
      let pPath := repoPath ++ [k]
      if plugin_model.row.enabled then
        match disable_plugin st pPath with
        | (st1, ev1, PyResult.exn e) => (st1, ev1, PyResult.exn e)
        | (st1, ev1, PyResult.ok _) =>
          match uninstall_plugin st1 pPath with
          | (st2, ev2, PyResult.exn e) => (st2, ev1 ++ ev2, PyResult.exn e)
          | (st2, ev2, PyResult.ok _) => (st2, ev1 ++ ev2, PyResult.ok true)
      else
        match uninstall_plugin st pPath with
        | (st2, ev2, PyResult.exn e) => (st2, ev2, PyResult.exn e)
        | (st2, ev2, PyResult.ok _) => (st2, ev2, PyResult.ok true)

/-- Source function `_remove_matching_plugin` (source lines 580-602). -/
def remove_matching_plugin (st : WindowState) (p : List Nat)
    (plugin_src : Option InstallSrc) : WindowState × List Event × PyResult Bool :=
  match getNode st.tree p with
  | none => (st, [], PyResult.exn ("invalid path"))
  | some node =>
    match findRepoModel st.tree plugin_src with
    | none => (st, [], PyResult.ok false)
    | some repoPath =>
      match getNode st.tree repoPath with
      | none => (st, [], PyResult.ok false)
      | some repo_model =>
        removeMatchingLoop st repoPath repo_model.children 0 node.row.id

/-- The uninstall tail of `signal_renderer_toggled_install`'s installed
branch (source lines 537-539): call `_uninstall_plugin` (result ignored)
and push the completed status. -/
def toggledUninstallFinish (st : WindowState) (p : List Nat) (named_row : NamedRow)
    (ev : List Event) : WindowState × List Event × InstallOutcome :=
  match uninstall_plugin st p with
  | (st1, ev2, PyResult.exn e) => (st1, ev ++ ev2, InstallOutcome.uninstallRaised e)
  | (st1, ev2, PyResult.ok removed) =>
    (st1,
      ev ++ ev2 ++ [Event.statusBar ("Uninstalling plugin " ++ named_row.id ++ " completed.")],
      InstallOutcome.uninstallCompleted removed)

/-- The installed branch of `signal_renderer_toggled_install` (source
lines 531-539): confirm and disable first when the row is enabled, then
uninstall. -/
def toggledUninstallBranch (st : WindowState) (p : List Nat) (named_row : NamedRow)
    (confirmDisable : Bool) : WindowState × List Event × InstallOutcome :=
  let ev0 := [Event.statusBar ("Uninstalling plugin " ++ named_row.id ++ "...")]
  if named_row.enabled then
    let ev1 := ev0 ++
      [Event.dialogYesNo ("Plugin is Enabled")
        "This will disable the plugin, do you want to continue?" confirmDisable]
    if confirmDisable = false then (st, ev1, InstallOutcome.uninstallDeclined)
    else
      match disable_plugin st p with
      | (st1, ev2, PyResult.exn e) => (st1, ev1 ++ ev2, InstallOutcome.uninstallRaised e)
      | (st1, ev2, PyResult.ok _) => toggledUninstallFinish st1 p named_row (ev1 ++ ev2)
  else
    toggledUninstallFinish st p named_row ev0

/-- The install attempt of `signal_renderer_toggled_install` (source
lines 551-569): call the transport; on `ConnectionError` or any other
exception show an error dialog and return; on success write the
Installation Record entry, update the row, and call `pm.load_all`. -/
def installFresh (st : WindowState) (p : List Nat)
    (named_row catalog_model repo_model : NamedRow) (installRes : InstallResult)
    (versionFromRepo : String) (la : LoadAllResult) (replacedOld : Bool) :
    WindowState × List Event × InstallOutcome :=
  let ev := [Event.statusBar ("Installing plugin " ++ named_row.title ++ "...")]
  match installRes with
  | InstallResult.connectionError =>
    (st,
      ev ++ [Event.logWarning ("failed to download plugin " ++ named_row.id),
        Event.dialogError ("Failed To Install")
          ("Failed to download " ++ named_row.id ++ " plugin, check your internet connection.")],
      InstallOutcome.downloadConnError replacedOld)
  | InstallResult.otherError =>
    (st,
      ev ++ [Event.logWarning ("failed to install plugin " ++ named_row.id),
        Event.dialogError ("Failed To Install")
          ("Failed to install " ++ named_row.id ++ " plugin."),
        Event.statusBar ("Installing plugin " ++ named_row.title ++ " failed.")],
      InstallOutcome.installFailed replacedOld)
  | InstallResult.ok =>
    let st1 := { st with
      installed := aset st.installed named_row.id
        (some (InstallSrc.mk catalog_model.id repo_model.id named_row.id)) }
    let st2 := { st1 with
      tree := modifyRowAt st1.tree p
        (fun r => { r with installed := true, version := some versionFromRepo }) }
    let st3 := { st2 with
      pmLoaded := la.loaded,
      moduleErrors := asetAll st2.moduleErrors la.errors,
      pmEnabled := la.regEnabled }
    (st3,
      ev ++ [Event.logInfo ("installed plugin " ++ named_row.id ++ " from catalog:" ++
          catalog_model.id ++ ", repository:" ++ repo_model.id),
        Event.statusBar ("Installing plugin " ++ named_row.title ++ " completed."),
        Event.regLoadAllCall],
      InstallOutcome.installedOk replacedOld)

/-- Source function `signal_renderer_toggled_install` (source lines 528-569). -/
def signal_renderer_toggled_install (st : WindowState) (p : List Nat)
    (confirmDisable confirmReplace : Bool) (installRes : InstallResult)
    (versionFromRepo : String) (la : LoadAllResult) :
    WindowState × List Event × InstallOutcome :=
  match get_plugin_model_parents st.tree p with
  | none => (st, [], InstallOutcome.badPath ("TypeError"))
  | some (repo_model, catalog_model) =>
    match getNode st.tree p with
    | none => (st, [], InstallOutcome.badPath ("invalid path"))
    | some node =>
      let named_row := node.row
      if named_row.installed then
        toggledUninstallBranch st p named_row confirmDisable
      else
        match alookup st.installed named_row.id with
        | some plugin_src =>
          if plugin_src ≠ some (InstallSrc.mk catalog_model.id repo_model.id named_row.id) then
            let evq := [Event.dialogYesNo ("Plugin installed from another source")
              "A plugin with this name is already installed from another repository. Do you want to replace it with this one?"
              confirmReplace]
            if confirmReplace = false then (st, evq, InstallOutcome.replaceDeclined)
            else
              match remove_matching_plugin st p plugin_src with
              | (st1, ev1, PyResult.exn e) =>
                (st1, evq ++ ev1, InstallOutcome.replaceRaised e)
              | (st1, ev1, PyResult.ok false) =>
                (st1,
                  evq ++ ev1 ++ [Event.logWarning ("failed to uninstall plugin " ++ named_row.id)],
                  InstallOutcome.replaceRemoveFailed)
              | (st1, ev1, PyResult.ok true) =>
                match installFresh st1 p named_row catalog_model repo_model installRes
                    versionFromRepo la true with
                | (st2, ev2, oc) => (st2, evq ++ ev1 ++ ev2, oc)
          else
            installFresh st p named_row catalog_model repo_model installRes
              versionFromRepo la false
        | none =>
          installFresh st p named_row catalog_model repo_model installRes
            versionFromRepo la false

/-- Source function `_reload_plugin` (source lines 466-485): remember whether the registry
had the plugin enabled, unload, reload through `pm.load`; on failure
record the module error and retitle the row "(Reload Failed)"; on success
drop any recorded module error, refresh title/compatibility/version, and
re-enable through the registry when it was enabled before.  (`_set_info`
refreshes the info pane only, a pure display concern.) -/
def reload_plugin (st : WindowState) (p : List Nat) (_selected : Option String)
    (loadRes : Except String PluginHandle) (regOk : Bool) :
    WindowState × List Event × ReloadOutcome :=
  match getNode st.tree p with
  | none => (st, [], ReloadOutcome.badPath)
  | some node =>
    let named_row := node.row
    let enabled := named_row.id ∈ st.pmEnabled
    let st1 := { st with
      pmLoaded := adel st.pmLoaded named_row.id,
      pmEnabled := removeFirst st.pmEnabled named_row.id }
    match loadRes with
    | Except.error err =>
      let st2 := { st1 with moduleErrors := aset st1.moduleErrors named_row.id err }
      let st3 := { st2 with
        tree := modifyRowAt st2.tree p
          (fun r => { r with title := named_row.id ++ " (Reload Failed)" }) }
      (st3, [Event.regUnloadCall named_row.id, Event.regLoadCall named_row.id],
        ReloadOutcome.loadFailed)
    | Except.ok klass =>
      let st2 := { st1 with moduleErrors := adel st1.moduleErrors named_row.id }
      let st3 := { st2 with
        tree := modifyRowAt st2.tree p
          (fun r => { r with
            title := klass.title,
            compatibility := some (if klass.is_compatible then ("Yes") else ("No")),
            version := some klass.version }) }
      if enabled then
        let st4 :=
          if regOk then { st3 with pmEnabled := st3.pmEnabled ++ [named_row.id] } else st3
        (st4,
          [Event.regUnloadCall named_row.id, Event.regLoadCall named_row.id,
            Event.regEnableCall named_row.id],
          ReloadOutcome.loadedOk)
      else
        (st3, [Event.regUnloadCall named_row.id, Event.regLoadCall named_row.id],
          ReloadOutcome.loadedOk)

/-- The plugin branch of `_reload` (source lines 458-462): only installed
plugin rows are reloaded; other row types are handled by the catalog and
repository reload paths, which are not part of the modelled transitions. -/
def reload_row (st : WindowState) (p : List Nat) (selected : Option String)
    (loadRes : Except String PluginHandle) (regOk : Bool) :
    WindowState × List Event × ReloadOutcome :=
  match getNode st.tree p with
  | none => (st, [], ReloadOutcome.badPath)
  | some node =>
    if node.row.type = RowType.plugin then
      if node.row.installed = false then
        (st, [Event.statusBar ("Cannot reload a plugin that is not installed.")],
          ReloadOutcome.notInstalled)
      else reload_plugin st p selected loadRes regOk
    else (st, [], ReloadOutcome.unsupportedRow)

/-- A user-driven transition of the window, with the oracle answers of the
external collaborators (registry accept/refuse, transport result, dialog
answers, the `load_all` outcome) supplied as data. -/
inductive Transition where
  | enableToggle (p : List Nat) (regOk : Bool)
  | installToggle (p : List Nat) (confirmDisable confirmReplace : Bool)
      (installRes : InstallResult) (versionFromRepo : String) (la : LoadAllResult)
  | reloadPlugin (p : List Nat) (selected : Option String)
      (loadRes : Except String PluginHandle) (regOk : Bool)

/-- Combined outcome of a transition. -/
inductive StepOutcome where
  | en (o : EnableOutcome)
  | inst (o : InstallOutcome)
  | rel (o : ReloadOutcome)
deriving DecidableEq, Repr

/-- One transition applied to the window state. -/
def step (st : WindowState) : Transition → WindowState × List Event × StepOutcome
  | Transition.enableToggle p regOk =>
    match signal_renderer_toggled_enable st p regOk with
    | (st1, ev, o) => (st1, ev, StepOutcome.en o)
  | Transition.installToggle p cd cr ir v la =>
    match signal_renderer_toggled_install st p cd cr ir v la with
    | (st1, ev, o) => (st1, ev, StepOutcome.inst o)
  | Transition.reloadPlugin p sel lr regOk =>
    match reload_row st p sel lr regOk with
    | (st1, ev, o) => (st1, ev, StepOutcome.rel o)

/-- The tree path a transition acts on. -/
def transPath : Transition → List Nat
  | Transition.enableToggle p _ => p
  | Transition.installToggle p _ _ _ _ _ => p
  | Transition.reloadPlugin p _ _ _ => p

/-- Which enable outcomes constitute a transition that did not complete. -/
def enableOutcomeFailed : EnableOutcome → Bool
  | EnableOutcome.toggledOff => false
  | EnableOutcome.enabledOk => false
  | _ => true

/-- Which install/uninstall outcomes constitute a transition that did not
complete (`uninstallCompleted false` is the on-disk-artifact-missing
failure whose boolean the caller discards). -/
def installOutcomeFailed : InstallOutcome → Bool
  | InstallOutcome.uninstallCompleted removed => !removed
  | InstallOutcome.installedOk _ => false
  | _ => true

/-- Which reload outcomes constitute a transition that did not complete. -/
def reloadOutcomeFailed : ReloadOutcome → Bool
  | ReloadOutcome.loadedOk => false
  | _ => true

/-- A failed transition, per outcome. -/
def stepFailed : StepOutcome → Bool
  | StepOutcome.en o => enableOutcomeFailed o
  | StepOutcome.inst o => installOutcomeFailed o
  | StepOutcome.rel o => reloadOutcomeFailed o

/-- A catalog cache entry as returned by `get_catalog_by_url`: creation
time (modelled in seconds), the cached catalog document (opaque to this
module) and the source URL. -/
structure CacheEntry where
  created : Int
  value : String
  url : String
deriving DecidableEq, Repr

/-- What the per-URL body of `_load_catalogs` did for one catalog URL. -/
inductive LoadAction where
  | fromCache
  | downloaded
  | skipped
deriving DecidableEq, Repr

/-- The freshness window `datetime.timedelta(hours=4)`, in seconds. -/
def expirationSeconds : Int := 4 * 60 * 60

/-- The per-URL body of the `_load_catalogs` loop (source lines 169-184):
without a refresh, a present cache entry younger than the expiration
window is reused (the `Catalog` constructor is an external collaborator
assumed to accept the cached document); otherwise the catalog is
downloaded, and a failed download skips the catalog. -/
def load_catalogs_step (refresh : Bool) (now : Int)
    (catalog_cache_dict : Option CacheEntry) (fetchOk : Bool) : LoadAction :=
  match catalog_cache_dict with
  | some cdict =>
    if refresh = false ∧ cdict.created + expirationSeconds > now then LoadAction.fromCache
    else if fetchOk then LoadAction.downloaded
    else LoadAction.skipped
  | none =>
    if fetchOk then LoadAction.downloaded
    else LoadAction.skipped

/-- Metadata of one plugin in a repository's collection (the fields this
module reads from `plugin_info`). -/
structure PluginInfo where
  name : String
  title : String
  version : String
deriving DecidableEq, Repr

/-- A repository as this module reads it: id and title. -/
structure RepoInfo where
  id : String
  title : String
deriving DecidableEq, Repr

/-- A cached catalog used by the offline branch of `_load_plugins`. -/
structure CachedCatalog where
  repositories : List RepoInfo

/-- The catalog registry collaborator (`self.catalog_plugins`): live
catalog ids, their repositories, the per-repository plugin collections,
the compatibility oracle `is_compatible`, and the catalog cache keyed by
catalog id. -/
structure CatalogsState where
  catalogIds : List String
  repositories : String → List RepoInfo
  collection : String → String → Option (List PluginInfo)
  compatible : String → String → String → Bool
  cache : List (String × CachedCatalog)

/-- One plugin row built by the loop body of `_add_plugins_to_tree`
(source lines 323-342): installed iff the Installation Record entry is
truthy and names exactly this repository and catalog; enabled additionally
requires membership in the Enabled Set. -/
def pluginRowOf (catalog_id : String) (repo : RepoInfo)
    (installedRec : List (String × Option InstallSrc)) (enabledList : List String)
    (compat : String → Bool) (plugin_info : PluginInfo) : NamedRow :=
  let plugin_name := plugin_info.name
  let install_src := agetv installedRec plugin_name
  let installedFlag : Bool :=
    match install_src with
    | some src => decide (repo.id = src.repo_id) && decide (catalog_id = src.catalog_id)
    | none => false
  { id := plugin_name,
    installed := installedFlag,
    enabled := installedFlag && decide (plugin_name ∈ enabledList),
    title := plugin_info.title,
    compatibility := some (if compat plugin_name then ("Yes") else ("No")),
    version := some plugin_info.version,
    visible_enabled := true,
    visible_installed := true,
    sensitive_installed := compat plugin_name,
    type := RowType.plugin }

/-- Source function `_add_plugins_to_tree` (source lines 321-343). -/
def add_plugins_to_tree (catalog_id : String) (repo : RepoInfo)
    (installedRec : List (String × Option InstallSrc)) (enabledList : List String)
    (compat : String → Bool) (plugin_list : List PluginInfo) : List NamedRow :=
  plugin_list.map (pluginRowOf catalog_id repo installedRec enabledList compat)

/-- Source function `_add_catalog_to_tree` (source lines 288-319): the catalog row, one
row per repository, and the repository's plugin rows (skipped when the
collection is absent or empty). -/
def add_catalog_to_tree (catalog_id : String) (cats : CatalogsState)
    (installedRec : List (String × Option InstallSrc)) (enabledList : List String) : Node :=
  Node.mk
    { id := catalog_id, installed := false, enabled := true, title := catalog_id,
      compatibility := none, version := none, visible_enabled := false,
      visible_installed := false, sensitive_installed := false, type := RowType.catalog }
    ((cats.repositories catalog_id).map fun repo =>
      Node.mk
        { id := repo.id, installed := false, enabled := true, title := repo.title,
          compatibility := none, version := none, visible_enabled := false,
          visible_installed := false, sensitive_installed := false,
          type := RowType.repository }
        (match cats.collection catalog_id repo.id with
         | none => []
         | some plugin_collections =>
           (add_plugins_to_tree catalog_id repo installedRec enabledList
             (cats.compatible catalog_id repo.id) plugin_collections).map
             fun r => Node.mk r []))

/-- Source function `_add_plugins_offline` (source lines 345-368): rows for installed
plugins of a cached (not live) catalog/repository, taking metadata from
the plugin registry; entries with a `None` source or not present in the
registry are skipped. -/
def add_plugins_offline (catalog_id repo_id : String)
    (installedRec : List (String × Option InstallSrc)) (enabledList : List String)
    (pmLoaded : List (String × PluginHandle)) : List NamedRow :=
  installedRec.filterMap fun kv =>
    match kv.2 with
    | none => none
    | some plugin_src =>
      match alookup pmLoaded kv.1 with
      | none => none
      | some handle =>
        if plugin_src.catalog_id ≠ catalog_id then none
        else if plugin_src.repo_id ≠ repo_id then none
        else some
          { id := kv.1, installed := true,
            enabled := decide (kv.1 ∈ enabledList),
            title := handle.title,
            compatibility := some (if handle.is_compatible then ("Yes") else ("No")),
            version := some handle.version,
            visible_enabled := true, visible_installed := true,
            sensitive_installed := false, type := RowType.plugin }

/-- The offline catalog subtree built by `_load_plugins` for a cached
catalog that is not live (source lines 274-283). -/
def offline_catalog_node (catalog_id : String) (named_catalog : CachedCatalog)
    (installedRec : List (String × Option InstallSrc)) (enabledList : List String)
    (pmLoaded : List (String × PluginHandle)) : Node :=
  Node.mk
    { id := catalog_id, installed := false, enabled := true, title := catalog_id,
      compatibility := none, version := none, visible_enabled := false,
      visible_installed := false, sensitive_installed := false, type := RowType.catalog }
    (named_catalog.repositories.map fun repo =>
      Node.mk
        { id := repo.id, installed := false, enabled := true, title := repo.title,
          compatibility := none, version := none, visible_enabled := false,
          visible_installed := false, sensitive_installed := false,
          type := RowType.repository }
        ((add_plugins_offline catalog_id repo.id installedRec enabledList pmLoaded).map
          fun r => Node.mk r []))

/-- The record-writing loop of `_load_plugins` (source lines 246-261):
for each loaded plugin, skip it when its Installation Record entry is
truthy (it will appear under its catalog), otherwise write `None` into
the Installation Record and emit a local plugin row. -/
def registerLoadedPlugins (installedRec : List (String × Option InstallSrc))
    (loaded : List (String × PluginHandle)) (regEnabled : List String) :
    List (String × Option InstallSrc) × List NamedRow :=
  match loaded with
  | [] => (installedRec, [])
  | (name, plugin) :: rest =>
    if (agetv installedRec name).isSome then
      registerLoadedPlugins installedRec rest regEnabled
    else
      let installedRec1 := aset installedRec name none
      let row : NamedRow :=
        { id := plugin.name, installed := true,
          enabled := decide (plugin.name ∈ regEnabled),
          title := plugin.title,
          compatibility := some (if plugin.is_compatible then ("Yes") else ("No")),
          version := some plugin.version,
          visible_enabled := true, visible_installed := true,
          sensitive_installed := false, type := RowType.plugin }
      let res := registerLoadedPlugins installedRec1 rest regEnabled
      (res.1, row :: res.2)

/-- Source function `_load_plugins` (source lines 231-286): clear the store, reset module
errors and call `pm.load_all` (its outcome supplied as `la`), emit the
local pseudo-catalog with rows for loaded plugins without a truthy record
(writing `None` records for them) and for load failures, then the live
catalogs and the cached-only catalogs. -/
def load_plugins (st : WindowState) (cats : CatalogsState) (la : LoadAllResult) :
    WindowState × List Event :=
  let ev : List Event :=
    [Event.logDebug ("loading plugins"), Event.statusBar ("Loading plugins..."),
      Event.regLoadAllCall]
  let st1 : WindowState := { st with
    tree := [], moduleErrors := la.errors, pmLoaded := la.loaded,
    pmEnabled := la.regEnabled }
  let localRow : NamedRow :=
    { id := LOCAL_REPOSITORY_ID, installed := false, enabled := true,
      title := LOCAL_REPOSITORY_TITLE, compatibility := none, version := none,
      visible_enabled := false, visible_installed := false,
      sensitive_installed := false, type := RowType.catalog }
  let reg := registerLoadedPlugins st1.installed st1.pmLoaded st1.pmEnabled
  let st2 : WindowState := { st1 with installed := reg.1 }
  let errRows : List NamedRow := st2.moduleErrors.map fun kv =>
    { id := kv.1, installed := true, enabled := false,
      title := kv.1 ++ " (Load Failed)", compatibility := some ("No"),
      version := some ("Unknown"), visible_enabled := true, visible_installed := true,
      sensitive_installed := false, type := RowType.plugin }
  let localNode : Node := Node.mk localRow ((reg.2 ++ errRows).map fun r => Node.mk r [])
  let catalogNodes : List Node :=
    cats.catalogIds.map fun cid => add_catalog_to_tree cid cats st2.installed st2.enabled
  let offlineNodes : List Node := cats.cache.filterMap fun kv =>
    if cats.catalogIds.contains kv.1 then none
    else some (offline_catalog_node kv.1 kv.2 st2.installed st2.enabled st2.pmLoaded)
  let st3 : WindowState := { st2 with tree := [localNode] ++ catalogNodes ++ offlineNodes }
  (st3, ev ++ [Event.statusBar ("Loading completed")])

/-- The invariant of claim C2: every member of the persisted Enabled Set
has an Installation Record entry. -/
def enabledHasRecord (st : WindowState) : Prop :=
  ∀ x : String, x ∈ st.enabled → (alookup st.installed x).isSome = true

/-- Display consistency of one row: a plugin row's enabled flag mirrors
membership in the persisted Enabled Set; non-plugin rows (catalog and
repository rows) are built with the enabled column set to `True`. -/
def rowOk (enl : List String) (r : NamedRow) : Prop :=
  if r.type = RowType.plugin then (r.enabled = true ↔ r.id ∈ enl) else r.enabled = true

/-- Well-formedness of a window state, as established by `_load_plugins`:
no duplicate ids in the Enabled Set, every loaded plugin has an
Installation Record entry (the reconciliation loop writes one), and the
display rows are consistent with the Enabled Set. -/
def stateWf (st : WindowState) : Prop :=
  st.enabled.Nodup ∧
  (∀ x : String, (alookup st.pmLoaded x).isSome = true →
    (alookup st.installed x).isSome = true) ∧
  (∀ r ∈ allRowsForest st.tree, rowOk st.enabled r)

/-- Sample loaded-plugin handle used by the concrete scenarios. -/
def fooHandle : PluginHandle :=
  { name := "foo", title := "Foo", version := "1.0", is_compatible := true }

/-- Sample loaded-plugin handle used by the concrete scenarios. -/
def barHandle : PluginHandle :=
  { name := "bar", title := "Bar", version := "1.0", is_compatible := true }

/-- A catalog row as the tree-building code creates it. -/
def catalogRow (cid : String) : NamedRow :=
  { id := cid, installed := false, enabled := true, title := cid,
    compatibility := none, version := none, visible_enabled := false,
    visible_installed := false, sensitive_installed := false, type := RowType.catalog }

/-- A repository row as the tree-building code creates it. -/
def repoRow (rid : String) : NamedRow :=
  { id := rid, installed := false, enabled := true, title := rid,
    compatibility := none, version := none, visible_enabled := false,
    visible_installed := false, sensitive_installed := false,
    type := RowType.repository }

/-- The row of plugin "foo" under its installed source (catA, repoB). -/
def fooRowInstalled : NamedRow :=
  { id := "foo", installed := true, enabled := true, title := "Foo",
    compatibility := some ("Yes"), version := some ("1.0"), visible_enabled := true,
    visible_installed := true, sensitive_installed := true, type := RowType.plugin }

/-- The row of plugin "foo" under the other collection (catC, repoD). -/
def fooRowOther : NamedRow :=
  { id := "foo", installed := false, enabled := false, title := "Foo",
    compatibility := some ("Yes"), version := some ("1.0"), visible_enabled := true,
    visible_installed := true, sensitive_installed := true, type := RowType.plugin }

/-- An empty `pm.load_all` outcome. -/
def emptyLoadAll : LoadAllResult := { loaded := [], errors := [], regEnabled := [] }

/-- Scenario: plugin "foo" is installed (as a single file on disk) and
enabled from catalog "catA" / repository "repoB", and the same plugin id
also appears in the collection of catalog "catC" / repository "repoD". -/
def replaceState : WindowState :=
  { installed := [("foo", some (InstallSrc.mk ("catA") "repoB" "foo"))],
    enabled := ["foo"],
    pmLoaded := [("foo", fooHandle)],
    pmEnabled := ["foo"],
    moduleErrors := [],
    tree :=
      [Node.mk (catalogRow LOCAL_REPOSITORY_ID) [],
        Node.mk (catalogRow ("catA")) [Node.mk (repoRow ("repoB")) [Node.mk fooRowInstalled []]],
        Node.mk (catalogRow ("catC")) [Node.mk (repoRow ("repoD")) [Node.mk fooRowOther []]]],
    diskPkg := [],
    diskFile := ["foo"] }

/-- The replace-from-different-source transition on `replaceState`, toggling
the install cell of "foo" under (catC, repoD) while the download fails with
a connection error. -/
def replaceTransition : Transition :=
  Transition.installToggle [2, 0, 0] true true InstallResult.connectionError ("1.0") emptyLoadAll

/-- The row of plugin "bar", installed but not enabled. -/
def barRowInstalled : NamedRow :=
  { id := "bar", installed := true, enabled := false, title := "Bar",
    compatibility := some ("Yes"), version := some ("1.0"), visible_enabled := true,
    visible_installed := true, sensitive_installed := false, type := RowType.plugin }

/-- Scenario: plugin "bar" is locally installed and loaded, but a module
error is recorded for it; it is absent from the plugin directory on disk. -/
def moduleErrorState : WindowState :=
  { installed := [("bar", none)],
    enabled := [],
    pmLoaded := [("bar", barHandle)],
    pmEnabled := [],
    moduleErrors := [("bar", "boom")],
    tree := [Node.mk (catalogRow LOCAL_REPOSITORY_ID) [Node.mk barRowInstalled []]],
    diskPkg := [],
    diskFile := [] }

/-- Scenario: a row whose enabled flag is set although the persisted
Enabled Set is empty (the display state `_disable_plugin`'s callers rely
on, deliberately broken here). -/
def staleFlagState : WindowState :=
  { installed := [("x", none)],
    enabled := [],
    pmLoaded := [],
    pmEnabled := [],
    moduleErrors := [],
    tree :=
      [Node.mk (catalogRow LOCAL_REPOSITORY_ID)
        [Node.mk { fooRowInstalled with id := "x", title := "X" } []]],
    diskPkg := [],
    diskFile := [] }

/-- The row of plugin "bar" under (C1, R1), not installed. -/
def barRowAvailable : NamedRow :=
  { id := "bar", installed := false, enabled := false, title := "Bar",
    compatibility := some ("Yes"), version := some ("1.0"), visible_enabled := true,
    visible_installed := true, sensitive_installed := true, type := RowType.plugin }

/-- Scenario: plugin "bar" has no Installation Record entry and is offered
by catalog "C1" / repository "R1". -/
def freshInstallState : WindowState :=
  { installed := [],
    enabled := [],
    pmLoaded := [],
    pmEnabled := [],
    moduleErrors := [],
    tree := [Node.mk (catalogRow ("C1")) [Node.mk (repoRow ("R1")) [Node.mk barRowAvailable []]]],
    diskPkg := [],
    diskFile := [] }

/-- Minimal well-formed state used to witness the invariant theorem. -/
def simpleWfState : WindowState :=
  { installed := [("p", none)],
    enabled := ["p"],
    pmLoaded := [],
    pmEnabled := [],
    moduleErrors := [],
    tree := [],
    diskPkg := [],
    diskFile := [] }

/-- An empty catalog registry for concrete reconciliation runs. -/
def emptyCatalogs : CatalogsState :=
  { catalogIds := [], repositories := fun _ => [],
    collection := fun _ _ => none, compatible := fun _ _ _ => false, cache := [] }

theorem alookup_aset_self {β : Type} (d : List (String × β)) (k : String) (v : β) :
    alookup (aset d k v) k = some v := by
  induction d with
  | nil => simp [aset, alookup]
  | cons kv rest ih =>
    obtain ⟨k0, v0⟩ := kv
    by_cases h : k0 = k
    · subst h; simp [aset, alookup]
    · simp [aset, alookup, h, ih]

theorem alookup_aset_ne {β : Type} (d : List (String × β)) (k k' : String) (v : β)
    (h : k' ≠ k) : alookup (aset d k v) k' = alookup d k' := by
  induction d with
  | nil => simp [aset, alookup, Ne.symm h]
  | cons kv rest ih =>
    obtain ⟨k0, v0⟩ := kv
    by_cases h0 : k0 = k
    · subst h0; simp [aset, alookup, Ne.symm h]
    · simp [aset, alookup, h0, ih]

theorem isSome_alookup_aset {β : Type} (d : List (String × β)) (k k' : String) (v : β)
    (h : (alookup d k').isSome = true) : (alookup (aset d k v) k').isSome = true := by
  by_cases hk : k' = k
  · subst hk; simp [alookup_aset_self]
  · rw [alookup_aset_ne d k k' v hk]; exact h

theorem alookup_adel_ne {β : Type} (d : List (String × β)) (k k' : String)
    (h : k' ≠ k) : alookup (adel d k) k' = alookup d k' := by
  induction d with
  | nil => simp [adel]
  | cons kv rest ih =>
    obtain ⟨k0, v0⟩ := kv
    by_cases h0 : k0 = k
    · subst h0; simp [adel, alookup, Ne.symm h, ih]
    · simp [adel, alookup, h0, ih]

theorem mem_of_mem_removeFirst (l : List String) (x y : String)
    (h : y ∈ removeFirst l x) : y ∈ l := by
  induction l with
  | nil => simp [removeFirst] at h
  | cons z rest ih =>
    by_cases hz : z = x
    · subst hz
      simp only [removeFirst, if_pos rfl] at h
      exact List.mem_cons_of_mem _ h
    · simp only [removeFirst, if_neg hz] at h
      rcases List.mem_cons.mp h with h1 | h1
      · exact h1 ▸ List.mem_cons_self _ _
      · exact List.mem_cons_of_mem _ (ih h1)

theorem not_mem_removeFirst_self (l : List String) (x : String) (h : l.Nodup) :
    x ∉ removeFirst l x := by
  induction l with
  | nil => simp [removeFirst]
  | cons z rest ih =>
    rcases List.nodup_cons.mp h with ⟨hz, hrest⟩
    by_cases hzx : z = x
    · subst hzx
      simp only [removeFirst, if_pos rfl]
      exact hz
    · simp only [removeFirst, if_neg hzx]
      intro hmem
      rcases List.mem_cons.mp hmem with h1 | h1
      · exact hzx h1.symm
      · exact ih hrest h1

theorem getElem?_set_some {α : Type} (l : List α) (i : Nat) (a b : α)
    (h : l[i]? = some b) : (l.set i a)[i]? = some a := by
  have hlen : i < l.length := by
    rw [List.getElem?_eq_some] at h
    exact h.1
  exact List.getElem?_set_self hlen

theorem getNode_modifyRowAt_self :
    ∀ (p : List Nat) (ns : List Node) (f : NamedRow → NamedRow),
      getNode (modifyRowAt ns p f) p =
        (getNode ns p).map fun n => Node.mk (f n.row) n.children
  | [], ns, f => by simp [getNode]
  | [i], ns, f => by
    cases h : ns[i]? with
    | none => simp [getNode, modifyRowAt, h]
    | some n =>
      cases n with
      | mk row cs =>
        simp [getNode, modifyRowAt, h, Node.row, Node.children,
          getElem?_set_some ns i (Node.mk (f row) cs) (Node.mk row cs) h]
  | i :: j :: rest, ns, f => by
    cases h : ns[i]? with
    | none => simp [getNode, modifyRowAt, h]
    | some n =>
      cases n with
      | mk row cs =>
        have hset := getElem?_set_some ns i
          (Node.mk row (modifyRowAt cs (j :: rest) f)) (Node.mk row cs) h
        simp [getNode, modifyRowAt, h, hset, Node.row, Node.children,
          getNode_modifyRowAt_self (j :: rest) cs f]

theorem getNode_snoc :
    ∀ (q : List Nat) (ns : List Node) (k : Nat) (n : Node),
      getNode ns q = some n → getNode ns (q ++ [k]) = n.children[k]?
  | [], _, _, _, h => by simp [getNode] at h
  | [i], ns, k, n, h => by
    simp only [getNode] at h
    simp [getNode, h]
  | i :: j :: rest, ns, k, n, h => by
    simp only [getNode] at h
    cases hm : ns[i]? with
    | none => rw [hm] at h; simp at h
    | some m =>
      rw [hm] at h
      simp only [] at h
      have hrec := getNode_snoc (j :: rest) m.children k n h
      simp only [List.cons_append, getNode, hm]
      simpa [List.cons_append] using hrec

theorem mem_allRowsForest_of_mem_node (ns : List Node) (m : Node) (hm : m ∈ ns)
    (r : NamedRow) (hr : r ∈ allRowsNode m) : r ∈ allRowsForest ns := by
  induction ns with
  | nil => cases hm
  | cons a rest ih =>
    rcases List.mem_cons.mp hm with h | h
    · subst h
      simp only [allRowsForest, List.mem_append]
      exact Or.inl hr
    · simp only [allRowsForest, List.mem_append]
      exact Or.inr (ih h)

theorem row_mem_allRowsNode (n : Node) : n.row ∈ allRowsNode n := by
  cases n with
  | mk r cs => simp [allRowsNode, Node.row]

theorem sub_allRowsNode (m : Node) (r : NamedRow) (hr : r ∈ allRowsForest m.children) :
    r ∈ allRowsNode m := by
  cases m with
  | mk row cs =>
    simp only [allRowsNode, Node.children] at *
    exact List.mem_cons_of_mem _ hr

theorem row_mem_of_getNode :
    ∀ (q : List Nat) (ns : List Node) (n : Node),
      getNode ns q = some n → n.row ∈ allRowsForest ns
  | [], _, _, h => by simp [getNode] at h
  | [i], ns, n, h => by
    simp only [getNode] at h
    exact mem_allRowsForest_of_mem_node ns n (List.getElem?_mem h) n.row
      (row_mem_allRowsNode n)
  | i :: j :: rest, ns, n, h => by
    simp only [getNode] at h
    cases hm : ns[i]? with
    | none => rw [hm] at h; simp at h
    | some m =>
      rw [hm] at h
      simp only [] at h
      have hrec := row_mem_of_getNode (j :: rest) m.children n h
      exact mem_allRowsForest_of_mem_node ns m (List.getElem?_mem hm) n.row
        (sub_allRowsNode m n.row hrec)

theorem alookup_adel_self {β : Type} (d : List (String × β)) (k : String) :
    alookup (adel d k) k = none := by
  induction d with
  | nil => simp [adel, alookup]
  | cons kv rest ih =>
    obtain ⟨k0, v0⟩ := kv
    by_cases h0 : k0 = k
    · simp [adel, h0, ih]
    · simp [adel, alookup, h0, ih]

theorem alookup_isSome_of_agetv {β : Type} (d : List (String × Option β)) (k : String)
    (h : (agetv d k).isSome = true) : (alookup d k).isSome = true := by
  unfold agetv at h
  cases hl : alookup d k with
  | none => rw [hl] at h; simp at h
  | some v => simp

/-- C4 (freshness policy of `_load_catalogs`): with no explicit refresh and
a cache entry present, the cached document is reused iff the entry is
younger than four hours; an older entry leads to a network fetch. -/
theorem C4_cache_freshness (now : Int) (e : CacheEntry) (fetchOk : Bool) :
    (load_catalogs_step false now (some e) fetchOk = LoadAction.fromCache ↔
      now - e.created < expirationSeconds) ∧
    (expirationSeconds ≤ now - e.created →
      load_catalogs_step false now (some e) fetchOk =
        (if fetchOk then LoadAction.downloaded else LoadAction.skipped)) := by
  have hexp : expirationSeconds = 14400 := by norm_num [expirationSeconds]
  simp only [load_catalogs_step, hexp]
  by_cases h : e.created + (14400 : Int) > now
  · rw [if_pos ⟨trivial, h⟩]
    exact ⟨⟨fun _ => by omega, fun _ => rfl⟩, fun hge => absurd hge (by omega)⟩
  · rw [if_neg (fun hc => h hc.2)]
    refine ⟨⟨fun hcase => ?_, fun hlt => absurd hlt (by omega)⟩, fun _ => rfl⟩
    cases fetchOk <;> simp at hcase

/-- Witness for C4: an entry created five hours (18000 seconds) ago is not
reused; the catalog is downloaded instead. -/
theorem C4_witness :
    load_catalogs_step false 18000 (some (CacheEntry.mk 0 ("doc") "https://x/catalog.json")) true =
      LoadAction.downloaded ∧
    ¬((18000 : Int) - (0 : Int) < expirationSeconds) := by
  refine ⟨?_, by norm_num [expirationSeconds]⟩
  have h := (C4_cache_freshness 18000 (CacheEntry.mk 0 ("doc") "https://x/catalog.json") true).2
  simpa using h (by norm_num [expirationSeconds])

/-- C3 (`_add_plugins_to_tree`): a plugin row is installed iff the truthy
Installation Record entry for its id names exactly this catalog and this
repository; it is enabled iff additionally the id is in the Enabled Set;
and an entry naming a different source yields installed = false here. -/
theorem C3_installed_iff_source_matches (catalog_id : String) (repo : RepoInfo)
    (rec : List (String × Option InstallSrc)) (enl : List String)
    (compat : String → Bool) (plugin_list : List PluginInfo) (info : PluginInfo)
    (hmem : info ∈ plugin_list) :
    pluginRowOf catalog_id repo rec enl compat info ∈
      add_plugins_to_tree catalog_id repo rec enl compat plugin_list ∧
    ((pluginRowOf catalog_id repo rec enl compat info).installed = true ↔
      ∃ src, agetv rec info.name = some src ∧ catalog_id = src.catalog_id ∧
        repo.id = src.repo_id) ∧
    ((pluginRowOf catalog_id repo rec enl compat info).enabled = true ↔
      ((pluginRowOf catalog_id repo rec enl compat info).installed = true ∧
        info.name ∈ enl)) ∧
    (∀ src, agetv rec info.name = some src →
      ¬(catalog_id = src.catalog_id ∧ repo.id = src.repo_id) →
      (pluginRowOf catalog_id repo rec enl compat info).installed = false) := by
  refine ⟨List.mem_map_of_mem _ hmem, ?_, ?_, ?_⟩
  · unfold pluginRowOf
    cases hsrc : agetv rec info.name with
    | none => simp [hsrc]
    | some src =>
      simp only [hsrc, Bool.and_eq_true, decide_eq_true_eq, Option.some.injEq]
      constructor
      · rintro ⟨h1, h2⟩
        exact ⟨src, rfl, h2, h1⟩
      · rintro ⟨src', hsrc', h2, h1⟩
        subst hsrc'
        exact ⟨h1, h2⟩
  · unfold pluginRowOf
    cases hsrc : agetv rec info.name with
    | none => simp [hsrc]
    | some src =>
      simp only [hsrc, Bool.and_eq_true, decide_eq_true_eq]
  · intro src hsrc hne
    unfold pluginRowOf
    simp only [hsrc]
    by_cases h1 : repo.id = src.repo_id
    · by_cases h2 : catalog_id = src.catalog_id
      · exact absurd ⟨h2, h1⟩ hne
      · simp [h1, h2]
    · simp [h1]

/-- Witness for C3 at a concrete input: plugin "foo" is recorded as
installed from catalog "A" / repository "B"; its row under (A, B) is
installed and enabled, and an entry naming (A, B) viewed from repository
"D" of catalog "C" yields installed = false. -/
theorem C3_witness :
    (pluginRowOf ("A") (RepoInfo.mk ("B") "B")
        [("foo", some (InstallSrc.mk ("A") "B" "foo"))] ["foo"] (fun _ => true)
        (PluginInfo.mk ("foo") "Foo" "1.0")).installed = true ∧
    (pluginRowOf ("A") (RepoInfo.mk ("B") "B")
        [("foo", some (InstallSrc.mk ("A") "B" "foo"))] ["foo"] (fun _ => true)
        (PluginInfo.mk ("foo") "Foo" "1.0")).enabled = true ∧
    (pluginRowOf ("C") (RepoInfo.mk ("D") "D")
        [("foo", some (InstallSrc.mk ("A") "B" "foo"))] ["foo"] (fun _ => true)
        (PluginInfo.mk ("foo") "Foo" "1.0")).installed = false := by
  refine ⟨?_, ?_, ?_⟩
  · exact ((C3_installed_iff_source_matches ("A") (RepoInfo.mk ("B") "B")
      [("foo", some (InstallSrc.mk ("A") "B" "foo"))] ["foo"] (fun _ => true)
      [PluginInfo.mk ("foo") "Foo" "1.0"] (PluginInfo.mk ("foo") "Foo" "1.0")
      (by simp)).2.1).mpr ⟨InstallSrc.mk ("A") "B" "foo", by decide, rfl, rfl⟩
  · exact ((C3_installed_iff_source_matches ("A") (RepoInfo.mk ("B") "B")
      [("foo", some (InstallSrc.mk ("A") "B" "foo"))] ["foo"] (fun _ => true)
      [PluginInfo.mk ("foo") "Foo" "1.0"] (PluginInfo.mk ("foo") "Foo" "1.0")
      (by simp)).2.2.1).mpr ⟨by decide, by decide⟩
  · exact (C3_installed_iff_source_matches ("C") (RepoInfo.mk ("D") "D")
      [("foo", some (InstallSrc.mk ("A") "B" "foo"))] ["foo"] (fun _ => true)
      [PluginInfo.mk ("foo") "Foo" "1.0"] (PluginInfo.mk ("foo") "Foo" "1.0")
      (by simp)).2.2.2 (InstallSrc.mk ("A") "B" "foo") (by decide) (by decide)

/-- C6 (`_uninstall_plugin` with no on-disk artifact): when neither the
package directory nor the single file exists, the call logs a warning and
returns `False`, leaving the whole state — in particular the Installation
Record entry and the registry's loaded set — untouched. -/
theorem C6_uninstall_not_on_disk (st : WindowState) (p : List Nat) (n : Node)
    (hn : getNode st.tree p = some n)
    (h1 : n.row.id ∉ st.diskPkg) (h2 : n.row.id ∉ st.diskFile) :
    uninstall_plugin st p =
      (st,
        [Event.logWarning ("failed to find plugin " ++ n.row.id ++ " on disk for removal")],
        PyResult.ok false) := by
  unfold uninstall_plugin
  rw [hn]
  simp [h1, h2]

/-- Witness for C6: plugin "bar" is recorded as installed but absent from
disk; uninstalling returns failure with everything untouched. -/
theorem C6_witness :
    uninstall_plugin moduleErrorState [0, 0] =
      (moduleErrorState,
        [Event.logWarning ("failed to find plugin " ++ "bar" ++ " on disk for removal")],
        PyResult.ok false) :=
  C6_uninstall_not_on_disk moduleErrorState [0, 0] (Node.mk barRowInstalled []) rfl
    (by decide) (by decide)

/-- Counterexample for C7: `_disable_plugin` on a row whose id is not in
the persisted Enabled Set raises `ValueError` (from `list.remove`) instead
of succeeding as a no-op. -/
theorem C7_counterexample :
    (disable_plugin staleFlagState [0, 0]).2.2 = PyResult.exn ("ValueError") ∧
    (disable_plugin staleFlagState [0, 0]).1.enabled = staleFlagState.enabled := by
  exact ⟨rfl, rfl⟩

/-- C7 as amended (`_disable_plugin`): when the row's id is in the Enabled
Set the call removes its first occurrence and succeeds; when it is absent
the call raises `ValueError` (its callers only reach it for rows whose
enabled flag is set), leaving the Enabled Set unchanged; the Installation
Record is never touched. -/
theorem C7_disable_behaviour (st : WindowState) (p : List Nat) (n : Node)
    (hn : getNode st.tree p = some n) :
    (n.row.id ∈ st.enabled →
      (disable_plugin st p).2.2 = PyResult.ok () ∧
      (disable_plugin st p).1.enabled = removeFirst st.enabled n.row.id ∧
      (disable_plugin st p).1.installed = st.installed) ∧
    (n.row.id ∉ st.enabled →
      (disable_plugin st p).2.2 = PyResult.exn ("ValueError") ∧
      (disable_plugin st p).1.enabled = st.enabled ∧
      (disable_plugin st p).1.installed = st.installed) := by
  unfold disable_plugin
  rw [hn]
  constructor
  · intro hin
    simp [hin]
  · intro hout
    simp [hout]

/-- Witness for C7 as amended: disabling the enabled plugin "foo" removes
it from the Enabled Set and succeeds. -/
theorem C7_witness :
    (disable_plugin replaceState [1, 0, 0]).2.2 = PyResult.ok () ∧
    (disable_plugin replaceState [1, 0, 0]).1.enabled =
      removeFirst replaceState.enabled ("foo") ∧
    (disable_plugin replaceState [1, 0, 0]).1.installed = replaceState.installed :=
  (C7_disable_behaviour replaceState [1, 0, 0] (Node.mk fooRowInstalled []) rfl).1
    (by decide)

/-- C5 (`signal_renderer_toggled_enable` on a loaded plugin row that is
not enabled): a recorded module error rejects the enable before the
registry is ever called; otherwise an incompatible plugin is rejected with
an error dialog; otherwise the registry is asked, and on acceptance the id
is appended to the Enabled Set while a refusal is a silent no-op. -/
theorem C5_enable_flow (st : WindowState) (p : List Nat) (regOk : Bool) (n : Node)
    (handle : PluginHandle)
    (hn : getNode st.tree p = some n)
    (htype : n.row.type = RowType.plugin)
    (hload : alookup st.pmLoaded n.row.id = some handle)
    (hflag : n.row.enabled = false) :
    ((alookup st.moduleErrors n.row.id).isSome = true →
      (signal_renderer_toggled_enable st p regOk).2.2 = EnableOutcome.loadErrorPresent ∧
      (signal_renderer_toggled_enable st p regOk).1 = st ∧
      Event.regEnableCall n.row.id ∉ (signal_renderer_toggled_enable st p regOk).2.1) ∧
    ((alookup st.moduleErrors n.row.id).isSome = false → handle.is_compatible = false →
      (signal_renderer_toggled_enable st p regOk).2.2 = EnableOutcome.incompatible ∧
      (signal_renderer_toggled_enable st p regOk).1 = st) ∧
    ((alookup st.moduleErrors n.row.id).isSome = false → handle.is_compatible = true →
      regOk = true →
      (signal_renderer_toggled_enable st p regOk).2.2 = EnableOutcome.enabledOk ∧
      (signal_renderer_toggled_enable st p regOk).1.enabled = st.enabled ++ [n.row.id] ∧
      (signal_renderer_toggled_enable st p regOk).1.installed = st.installed) ∧
    ((alookup st.moduleErrors n.row.id).isSome = false → handle.is_compatible = true →
      regOk = false →
      (signal_renderer_toggled_enable st p regOk).2.2 = EnableOutcome.registryRefused ∧
      (signal_renderer_toggled_enable st p regOk).1 = st) := by
  refine ⟨fun herr => ?_, fun herr hc => ?_, fun herr hc hreg => ?_, fun herr hc hreg => ?_⟩
  · simp [signal_renderer_toggled_enable, hn, hload, htype, herr]
  · simp [signal_renderer_toggled_enable, hn, hload, htype, herr, hflag, hc]
  · simp [signal_renderer_toggled_enable, hn, hload, htype, herr, hflag, hc, hreg]
  · simp [signal_renderer_toggled_enable, hn, hload, htype, herr, hflag, hc, hreg]

/-- Witness for C5: plugin "bar" has a recorded module error; toggling its
enable cell is rejected before the registry is called, with no state
change. -/
theorem C5_witness :
    (signal_renderer_toggled_enable moduleErrorState [0, 0] true).2.2 =
      EnableOutcome.loadErrorPresent ∧
    (signal_renderer_toggled_enable moduleErrorState [0, 0] true).1 = moduleErrorState ∧
    Event.regEnableCall ("bar") ∉ (signal_renderer_toggled_enable moduleErrorState [0, 0] true).2.1 :=
  (C5_enable_flow moduleErrorState [0, 0] true (Node.mk barRowInstalled []) barHandle
    rfl rfl rfl rfl).1 (by decide)

/-- C8 (`_reload_plugin`): when the module raises on import the error is
recorded in the Module Error Record, the row is retitled
"<id> (Reload Failed)", the registry is not asked to re-enable and the
persisted Enabled Set and Installation Record are unchanged; on a
successful reload any prior Module Error Record entry is cleared, the
row's title is refreshed, and the plugin is re-enabled in the registry
when it was enabled before (and the registry accepts). -/
theorem C8_reload_behaviour (st : WindowState) (p : List Nat) (n : Node)
    (sel : Option String) (regOk : Bool) (loadRes : Except String PluginHandle)
    (hn : getNode st.tree p = some n) :
    (∀ err, loadRes = Except.error err →
      alookup (reload_plugin st p sel loadRes regOk).1.moduleErrors n.row.id = some err ∧
      rowTitleAt (reload_plugin st p sel loadRes regOk).1.tree p =
        some (n.row.id ++ " (Reload Failed)") ∧
      (reload_plugin st p sel loadRes regOk).1.enabled = st.enabled ∧
      (reload_plugin st p sel loadRes regOk).1.installed = st.installed ∧
      Event.regEnableCall n.row.id ∉ (reload_plugin st p sel loadRes regOk).2.1 ∧
      (reload_plugin st p sel loadRes regOk).2.2 = ReloadOutcome.loadFailed) ∧
    (∀ klass, loadRes = Except.ok klass →
      alookup (reload_plugin st p sel loadRes regOk).1.moduleErrors n.row.id = none ∧
      rowTitleAt (reload_plugin st p sel loadRes regOk).1.tree p = some klass.title ∧
      (reload_plugin st p sel loadRes regOk).1.enabled = st.enabled ∧
      (reload_plugin st p sel loadRes regOk).1.installed = st.installed ∧
      (n.row.id ∈ st.pmEnabled → regOk = true →
        n.row.id ∈ (reload_plugin st p sel loadRes regOk).1.pmEnabled) ∧
      (reload_plugin st p sel loadRes regOk).2.2 = ReloadOutcome.loadedOk) := by
  cases n with
  | mk nrow ncs =>
    constructor
    · intro err herr
      subst herr
      simp [reload_plugin, hn, rowTitleAt, getNode_modifyRowAt_self, alookup_aset_self,
        Node.row, Node.children]
    · intro klass hok
      subst hok
      by_cases hin : nrow.id ∈ st.pmEnabled <;> by_cases hreg : regOk = true <;>
        simp [reload_plugin, hn, hin, hreg, rowTitleAt, getNode_modifyRowAt_self,
          alookup_adel_self, Node.row, Node.children]

/-- Witness for C8: reloading the installed plugin "foo" while its module
raises "boom" on import records the error, retitles the row and leaves the
Enabled Set and the Installation Record unchanged. -/
theorem C8_witness :
    alookup (reload_plugin replaceState [1, 0, 0] none (Except.error ("boom")) true).1.moduleErrors
      ("foo") = some ("boom") ∧
    rowTitleAt (reload_plugin replaceState [1, 0, 0] none (Except.error ("boom")) true).1.tree
      [1, 0, 0] = some ("foo" ++ " (Reload Failed)") ∧
    (reload_plugin replaceState [1, 0, 0] none (Except.error ("boom")) true).1.enabled =
      replaceState.enabled ∧
    (reload_plugin replaceState [1, 0, 0] none (Except.error ("boom")) true).1.installed =
      replaceState.installed ∧
    Event.regEnableCall ("foo") ∉
      (reload_plugin replaceState [1, 0, 0] none (Except.error ("boom")) true).2.1 ∧
    (reload_plugin replaceState [1, 0, 0] none (Except.error ("boom")) true).2.2 =
      ReloadOutcome.loadFailed :=
  (C8_reload_behaviour replaceState [1, 0, 0] (Node.mk fooRowInstalled []) none true
    (Except.error ("boom")) rfl).1 ("boom") rfl

/-- C9 (`signal_renderer_toggled_install` fresh install, transport raises
a connection error): the handler returns normally with a user-visible
connectivity dialog, and the whole state — in particular the Installation
Record, which still has no entry for the plugin — is unchanged. -/
theorem C9_install_connectivity (st : WindowState) (p : List Nat) (n : Node)
    (rm cm : NamedRow) (cd cr : Bool) (v : String) (la : LoadAllResult)
    (hpar : get_plugin_model_parents st.tree p = some (rm, cm))
    (hn : getNode st.tree p = some n)
    (hnotinst : n.row.installed = false)
    (hnorec : alookup st.installed n.row.id = none) :
    (signal_renderer_toggled_install st p cd cr InstallResult.connectionError v la).2.2 =
      InstallOutcome.downloadConnError false ∧
    Event.dialogError ("Failed To Install")
      ("Failed to download " ++ n.row.id ++ " plugin, check your internet connection.") ∈
      (signal_renderer_toggled_install st p cd cr InstallResult.connectionError v la).2.1 ∧
    (signal_renderer_toggled_install st p cd cr InstallResult.connectionError v la).1 = st ∧
    alookup
      (signal_renderer_toggled_install st p cd cr InstallResult.connectionError v la).1.installed
      n.row.id = none := by
  unfold signal_renderer_toggled_install
  rw [hpar, hn]
  simp [hnotinst, hnorec, installFresh]

/-- Witness for C9: installing "bar" from (C1, R1) with a connection
error leaves the Installation Record without a "bar" entry and shows the
connectivity dialog. -/
theorem C9_witness :
    (signal_renderer_toggled_install freshInstallState [0, 0, 0] true true
      InstallResult.connectionError ("1.0") emptyLoadAll).2.2 =
      InstallOutcome.downloadConnError false ∧
    Event.dialogError ("Failed To Install")
      ("Failed to download " ++ "bar" ++ " plugin, check your internet connection.") ∈
      (signal_renderer_toggled_install freshInstallState [0, 0, 0] true true
        InstallResult.connectionError ("1.0") emptyLoadAll).2.1 ∧
    (signal_renderer_toggled_install freshInstallState [0, 0, 0] true true
      InstallResult.connectionError ("1.0") emptyLoadAll).1 = freshInstallState ∧
    alookup (signal_renderer_toggled_install freshInstallState [0, 0, 0] true true
      InstallResult.connectionError ("1.0") emptyLoadAll).1.installed ("bar") = none :=
  C9_install_connectivity freshInstallState [0, 0, 0] (Node.mk barRowAvailable [])
    (repoRow ("R1")) (catalogRow ("C1")) true true ("1.0") emptyLoadAll rfl rfl rfl rfl

theorem registerLoadedPlugins_mono (rec : List (String × Option InstallSrc))
    (loaded : List (String × PluginHandle)) (regEnabled : List String) (name : String)
    (h : (alookup rec name).isSome = true) :
    (alookup (registerLoadedPlugins rec loaded regEnabled).1 name).isSome = true := by
  induction loaded generalizing rec with
  | nil => simpa [registerLoadedPlugins] using h
  | cons kv rest ih =>
    obtain ⟨n0, h0⟩ := kv
    by_cases ht : (agetv rec n0).isSome = true
    · simp only [registerLoadedPlugins, ht, if_pos]
      exact ih rec h
    · simp only [registerLoadedPlugins, ht, if_neg, Bool.false_eq_true, not_false_eq_true]
      exact ih (aset rec n0 none) (isSome_alookup_aset rec n0 name none h)

theorem registerLoadedPlugins_some_none (rec : List (String × Option InstallSrc))
    (loaded : List (String × PluginHandle)) (regEnabled : List String) (name : String)
    (h : alookup rec name = some none) :
    alookup (registerLoadedPlugins rec loaded regEnabled).1 name = some none := by
  induction loaded generalizing rec with
  | nil => simpa [registerLoadedPlugins] using h
  | cons kv rest ih =>
    obtain ⟨n0, h0⟩ := kv
    by_cases ht : (agetv rec n0).isSome = true
    · simp only [registerLoadedPlugins, ht, if_pos]
      exact ih rec h
    · simp only [registerLoadedPlugins, ht, if_neg, Bool.false_eq_true, not_false_eq_true]
      apply ih
      by_cases hk : name = n0
      · subst hk
        exact alookup_aset_self rec name none
      · rw [alookup_aset_ne rec n0 name none hk]
        exact h

theorem registerLoadedPlugins_covers (rec : List (String × Option InstallSrc))
    (loaded : List (String × PluginHandle)) (regEnabled : List String)
    (name : String) (handle : PluginHandle) (hmem : (name, handle) ∈ loaded) :
    (agetv rec name = none →
      alookup (registerLoadedPlugins rec loaded regEnabled).1 name = some none) ∧
    (alookup (registerLoadedPlugins rec loaded regEnabled).1 name).isSome = true := by
  induction loaded generalizing rec with
  | nil => cases hmem
  | cons kv rest ih =>
    obtain ⟨n0, h0⟩ := kv
    rcases List.mem_cons.mp hmem with heq | hmem'
    · have hname : name = n0 := congrArg Prod.fst heq
      subst hname
      by_cases ht : (agetv rec name).isSome = true
      · constructor
        · intro hget
          rw [hget] at ht
          simp at ht
        · simp only [registerLoadedPlugins, ht, if_pos]
          exact registerLoadedPlugins_mono rec rest regEnabled name
            (alookup_isSome_of_agetv rec name ht)
      · have hset : alookup (aset rec name none) name = some none :=
          alookup_aset_self rec name none
        constructor
        · intro _
          simp only [registerLoadedPlugins, ht, if_neg, Bool.false_eq_true, not_false_eq_true]
          exact registerLoadedPlugins_some_none _ rest regEnabled name hset
        · simp only [registerLoadedPlugins, ht, if_neg, Bool.false_eq_true, not_false_eq_true]
          exact registerLoadedPlugins_mono _ rest regEnabled name (by simp [hset])
    · by_cases ht : (agetv rec n0).isSome = true
      · simp only [registerLoadedPlugins, ht, if_pos]
        exact ih rec hmem'
      · simp only [registerLoadedPlugins, ht, if_neg, Bool.false_eq_true, not_false_eq_true]
        have hres := ih (aset rec n0 none) hmem'
        constructor
        · intro hget
          apply hres.1
          by_cases hk : name = n0
          · subst hk
            simp [agetv, alookup_aset_self]
          · unfold agetv
            rw [alookup_aset_ne rec n0 name none hk]
            exact hget
        · exact hres.2

/-- C10 (`_load_plugins` record side effect): every loaded plugin whose
Installation Record entry was absent or `None` gets an entry mapping it to
`None` written, so after reconciliation every loaded plugin id is a key of
the Installation Record. -/
theorem C10_load_plugins_registers (st : WindowState) (cats : CatalogsState)
    (la : LoadAllResult) (name : String) (handle : PluginHandle)
    (hmem : (name, handle) ∈ la.loaded) :
    (agetv st.installed name = none →
      alookup (load_plugins st cats la).1.installed name = some none) ∧
    (alookup (load_plugins st cats la).1.installed name).isSome = true := by
  have hkey : (load_plugins st cats la).1.installed =
      (registerLoadedPlugins st.installed la.loaded la.regEnabled).1 := rfl
  rw [hkey]
  exact registerLoadedPlugins_covers st.installed la.loaded la.regEnabled name handle hmem

/-- Witness for C10: reconciling with plugin "foo" loaded and no prior
record writes the entry `foo ↦ None`. -/
theorem C10_witness :
    alookup (load_plugins freshInstallState emptyCatalogs
      (LoadAllResult.mk [("foo", fooHandle)] [] [])).1.installed ("foo") = some none ∧
    (alookup (load_plugins freshInstallState emptyCatalogs
      (LoadAllResult.mk [("foo", fooHandle)] [] [])).1.installed ("foo")).isSome = true := by
  have h := C10_load_plugins_registers freshInstallState emptyCatalogs
    (LoadAllResult.mk [("foo", fooHandle)] [] []) "foo" fooHandle (by simp)
  exact ⟨h.1 rfl, h.2⟩

theorem disable_frame (st : WindowState) (p : List Nat) :
    (disable_plugin st p).1.installed = st.installed ∧
    (disable_plugin st p).1.moduleErrors = st.moduleErrors ∧
    (disable_plugin st p).1.pmLoaded = st.pmLoaded ∧
    (disable_plugin st p).1.diskPkg = st.diskPkg ∧
    (disable_plugin st p).1.diskFile = st.diskFile := by
  cases hn : getNode st.tree p with
  | none => simp [disable_plugin, hn]
  | some node =>
    by_cases hin : node.row.id ∈ st.enabled <;> simp [disable_plugin, hn, hin]

theorem disable_ok_spec (st : WindowState) (p : List Nat) (u : Unit)
    (h : (disable_plugin st p).2.2 = PyResult.ok u) :
    ∃ node, getNode st.tree p = some node ∧ node.row.id ∈ st.enabled ∧
      (disable_plugin st p).1 = { st with
        pmEnabled := removeFirst st.pmEnabled node.row.id,
        enabled := removeFirst st.enabled node.row.id,
        tree := modifyRowAt st.tree p (fun r => { r with enabled := false }) } := by
  cases hn : getNode st.tree p with
  | none => simp [disable_plugin, hn] at h
  | some node =>
    by_cases hin : node.row.id ∈ st.enabled
    · refine ⟨node, rfl, hin, ?_⟩
      simp [disable_plugin, hn, hin]
    · simp [disable_plugin, hn, hin] at h

theorem disable_exn_spec (st : WindowState) (p : List Nat) (e : String)
    (h : (disable_plugin st p).2.2 = PyResult.exn e) :
    (disable_plugin st p).1.installed = st.installed ∧
    (disable_plugin st p).1.enabled = st.enabled ∧
    (disable_plugin st p).1.tree = st.tree := by
  cases hn : getNode st.tree p with
  | none => simp [disable_plugin, hn]
  | some node =>
    by_cases hin : node.row.id ∈ st.enabled
    · simp [disable_plugin, hn, hin] at h
    · simp [disable_plugin, hn, hin]

theorem disable_enabled_sub (st : WindowState) (p : List Nat) (x : String)
    (hx : x ∈ (disable_plugin st p).1.enabled) : x ∈ st.enabled := by
  cases hn : getNode st.tree p with
  | none => simpa [disable_plugin, hn] using hx
  | some node =>
    by_cases hin : node.row.id ∈ st.enabled
    · simp only [disable_plugin, hn] at hx
      simp only [hin, if_pos] at hx
      exact mem_of_mem_removeFirst _ _ _ hx
    · simpa [disable_plugin, hn, hin] using hx

theorem enabledHasRecord_of_eq (st st' : WindowState) (he : st'.enabled = st.enabled)
    (hi : st'.installed = st.installed) (h : enabledHasRecord st) :
    enabledHasRecord st' := by
  intro x hx
  rw [hi]
  exact h x (he ▸ hx)

theorem disable_inv (st : WindowState) (p : List Nat) (hinv : enabledHasRecord st) :
    enabledHasRecord (disable_plugin st p).1 := by
  intro x hx
  rw [(disable_frame st p).1]
  exact hinv x (disable_enabled_sub st p x hx)

theorem uninstallFinish_spec (st : WindowState) (p : List Nat) (pid : String) :
    (uninstallFinish st p pid).1.enabled = st.enabled ∧
    (uninstallFinish st p pid).1.moduleErrors = st.moduleErrors ∧
    ((uninstallFinish st p pid).1.installed = st.installed ∨
      (uninstallFinish st p pid).1.installed = adel st.installed pid) ∧
    (uninstallFinish st p pid).2.2 ≠ PyResult.ok false := by
  by_cases hrec : (alookup st.installed pid).isSome = true
  · by_cases hpar : parentRowId st.tree p = some LOCAL_REPOSITORY_ID <;>
      simp [uninstallFinish, hrec, hpar]
  · simp [uninstallFinish, hrec]

theorem uninstall_spec (st : WindowState) (p : List Nat) :
    (uninstall_plugin st p).1.enabled = st.enabled ∧
    (uninstall_plugin st p).1.moduleErrors = st.moduleErrors ∧
    ((uninstall_plugin st p).1.installed = st.installed ∨
      ∃ node, getNode st.tree p = some node ∧
        (uninstall_plugin st p).1.installed = adel st.installed node.row.id) ∧
    ((uninstall_plugin st p).2.2 = PyResult.ok false → (uninstall_plugin st p).1 = st) := by
  cases hn : getNode st.tree p with
  | none => simp [uninstall_plugin, hn]
  | some node =>
    by_cases hpkg : node.row.id ∈ st.diskPkg
    · have hred : uninstall_plugin st p =
          uninstallFinish { st with diskPkg := removeFirst st.diskPkg node.row.id } p
            node.row.id := by
        simp [uninstall_plugin, hn, hpkg]
      rw [hred]
      have hspec := uninstallFinish_spec
        { st with diskPkg := removeFirst st.diskPkg node.row.id } p node.row.id
      refine ⟨hspec.1, hspec.2.1, ?_, fun hcontra => absurd hcontra hspec.2.2.2⟩
      rcases hspec.2.2.1 with h | h
      · exact Or.inl h
      · exact Or.inr ⟨node, rfl, h⟩
    · by_cases hfile : node.row.id ∈ st.diskFile
      · have hred : uninstall_plugin st p =
            uninstallFinish { st with diskFile := removeFirst st.diskFile node.row.id } p
              node.row.id := by
          simp [uninstall_plugin, hn, hpkg, hfile]
        rw [hred]
        have hspec := uninstallFinish_spec
          { st with diskFile := removeFirst st.diskFile node.row.id } p node.row.id
        refine ⟨hspec.1, hspec.2.1, ?_, fun hcontra => absurd hcontra hspec.2.2.2⟩
        rcases hspec.2.2.1 with h | h
        · exact Or.inl h
        · exact Or.inr ⟨node, rfl, h⟩
      · simp [uninstall_plugin, hn, hpkg, hfile]

theorem uninstall_inv (st : WindowState) (p : List Nat) (hinv : enabledHasRecord st)
    (hnot : ∀ node, getNode st.tree p = some node → node.row.id ∉ st.enabled) :
    enabledHasRecord (uninstall_plugin st p).1 := by
  intro x hx
  have hspec := uninstall_spec st p
  rw [hspec.1] at hx
  rcases hspec.2.2.1 with h | ⟨node, hn, h⟩
  · rw [h]
    exact hinv x hx
  · rw [h]
    have hxne : x ≠ node.row.id := fun hcontra => (hnot node hn) (hcontra ▸ hx)
    rw [alookup_adel_ne st.installed node.row.id x hxne]
    exact hinv x hx

theorem removeMatchingLoop_spec (st : WindowState) (repoPath : List Nat) (tid : String) :
    ∀ (rest : List Node) (k : Nat),
      (∀ j c, rest[j]? = some c → getNode st.tree (repoPath ++ [k + j]) = some c) →
      ((removeMatchingLoop st repoPath rest k tid).1.installed = st.installed ∨
        (removeMatchingLoop st repoPath rest k tid).1.installed = adel st.installed tid) ∧
      ((removeMatchingLoop st repoPath rest k tid).1.enabled = st.enabled ∨
        (removeMatchingLoop st repoPath rest k tid).1.enabled =
          removeFirst st.enabled tid) ∧
      ((removeMatchingLoop st repoPath rest k tid).2.2 = PyResult.ok false →
        (removeMatchingLoop st repoPath rest k tid).1 = st) := by
  intro rest
  induction rest with
  | nil =>
    intro k hcorr
    simp [removeMatchingLoop]
  | cons c rest' ih =>
    intro k hcorr
    obtain ⟨crow, ccs⟩ := c
    by_cases hid : crow.id ≠ tid
    · have hcorr' : ∀ j cc, rest'[j]? = some cc →
          getNode st.tree (repoPath ++ [(k + 1) + j]) = some cc := by
        intro j cc hj
        have h := hcorr (j + 1) cc (by simpa using hj)
        rwa [show k + (j + 1) = (k + 1) + j by omega] at h
      have hres := ih (k + 1) hcorr'
      simpa [removeMatchingLoop, Node.row, hid] using hres
    · push_neg at hid
      have hc0 : getNode st.tree (repoPath ++ [k]) = some (Node.mk crow ccs) := by
        have h := hcorr 0 (Node.mk crow ccs) (by simp)
        simpa using h
      by_cases hen : crow.enabled = true
      · rcases hdis : disable_plugin st (repoPath ++ [k]) with ⟨st1, ev1, res1⟩
        cases res1 with
        | exn e =>
          have hexn : (disable_plugin st (repoPath ++ [k])).2.2 = PyResult.exn e := by
            rw [hdis]
          have hspec := disable_exn_spec st (repoPath ++ [k]) e hexn
          have hst1i : st1.installed = st.installed := by
            have h := hspec.1
            rwa [hdis] at h
          have hst1e : st1.enabled = st.enabled := by
            have h := hspec.2.1
            rwa [hdis] at h
          have hred : removeMatchingLoop st repoPath (Node.mk crow ccs :: rest') k tid =
              (st1, ev1, PyResult.exn e) := by
            simp [removeMatchingLoop, Node.row, hid, hen, hdis]
          rw [hred]
          exact ⟨Or.inl hst1i, Or.inl hst1e, by simp⟩
        | ok u =>
          have hok : (disable_plugin st (repoPath ++ [k])).2.2 = PyResult.ok u := by
            rw [hdis]
          obtain ⟨node, hnode, hmem, hstate⟩ := disable_ok_spec st (repoPath ++ [k]) u hok
          have hnodec : node = Node.mk crow ccs := by
            rw [hnode] at hc0
            exact Option.some.inj hc0
          rw [hnodec] at hmem hstate
          simp only [Node.row] at hmem hstate
          have hst1 : st1 = { st with
              pmEnabled := removeFirst st.pmEnabled crow.id,
              enabled := removeFirst st.enabled crow.id,
              tree := modifyRowAt st.tree (repoPath ++ [k])
                (fun r => { r with enabled := false }) } := by
            rw [← hstate, hdis]
          have hnode1 : getNode st1.tree (repoPath ++ [k]) =
              some (Node.mk ({ crow with enabled := false }) ccs) := by
            rw [hst1]
            simp [getNode_modifyRowAt_self, hc0, Node.row, Node.children]
          rcases hun : uninstall_plugin st1 (repoPath ++ [k]) with ⟨st2, ev2, res2⟩
          have huspec := uninstall_spec st1 (repoPath ++ [k])
          rw [hun] at huspec
          have hinst2 : st2.installed = st.installed ∨
              st2.installed = adel st.installed tid := by
            rcases huspec.2.2.1 with h | ⟨node', hn', h⟩
            · left
              rw [h, hst1]
            · right
              rw [h]
              have heq : node' = Node.mk ({ crow with enabled := false }) ccs := by
                rw [hn'] at hnode1
                exact Option.some.inj hnode1
              rw [heq, hst1]
              simp [Node.row, hid]
          have hen2 : st2.enabled = removeFirst st.enabled tid := by
            rw [huspec.1, hst1]
            simp [hid]
          cases res2 with
          | exn e2 =>
            have hred : removeMatchingLoop st repoPath (Node.mk crow ccs :: rest') k tid =
                (st2, ev1 ++ ev2, PyResult.exn e2) := by
              simp [removeMatchingLoop, Node.row, hid, hen, hdis, hun]
            rw [hred]
            exact ⟨hinst2, Or.inr hen2, by simp⟩
          | ok b =>
            have hred : removeMatchingLoop st repoPath (Node.mk crow ccs :: rest') k tid =
                (st2, ev1 ++ ev2, PyResult.ok true) := by
              simp [removeMatchingLoop, Node.row, hid, hen, hdis, hun]
            rw [hred]
            exact ⟨hinst2, Or.inr hen2, by simp⟩
      · rcases hun : uninstall_plugin st (repoPath ++ [k]) with ⟨st2, ev2, res2⟩
        have huspec := uninstall_spec st (repoPath ++ [k])
        rw [hun] at huspec
        have hinst2 : st2.installed = st.installed ∨
            st2.installed = adel st.installed tid := by
          rcases huspec.2.2.1 with h | ⟨node', hn', h⟩
          · exact Or.inl h
          · right
            rw [h]
            have heq : node' = Node.mk crow ccs := by
              rw [hn'] at hc0
              exact Option.some.inj hc0
            rw [heq]
            simp [Node.row, hid]
        cases res2 with
        | exn e2 =>
          have hred : removeMatchingLoop st repoPath (Node.mk crow ccs :: rest') k tid =
              (st2, ev2, PyResult.exn e2) := by
            simp [removeMatchingLoop, Node.row, hid, hen, hun]
          rw [hred]
          exact ⟨hinst2, Or.inl huspec.1, by simp⟩
        | ok b =>
          have hred : removeMatchingLoop st repoPath (Node.mk crow ccs :: rest') k tid =
              (st2, ev2, PyResult.ok true) := by
            simp [removeMatchingLoop, Node.row, hid, hen, hun]
          rw [hred]
          exact ⟨hinst2, Or.inl huspec.1, by simp⟩

theorem removeMatchingLoop_inv (st : WindowState) (repoPath : List Nat) (tid : String)
    (hnodup : st.enabled.Nodup)
    (hrows : ∀ r ∈ allRowsForest st.tree, rowOk st.enabled r)
    (hinv : enabledHasRecord st) :
    ∀ (rest : List Node) (k : Nat),
      (∀ j c, rest[j]? = some c → getNode st.tree (repoPath ++ [k + j]) = some c) →
      enabledHasRecord (removeMatchingLoop st repoPath rest k tid).1 := by
  intro rest
  induction rest with
  | nil =>
    intro k hcorr
    simpa [removeMatchingLoop] using hinv
  | cons c rest' ih =>
    intro k hcorr
    obtain ⟨crow, ccs⟩ := c
    by_cases hid : crow.id ≠ tid
    · have hcorr' : ∀ j cc, rest'[j]? = some cc →
          getNode st.tree (repoPath ++ [(k + 1) + j]) = some cc := by
        intro j cc hj
        have h := hcorr (j + 1) cc (by simpa using hj)
        rwa [show k + (j + 1) = (k + 1) + j by omega] at h
      have hres := ih (k + 1) hcorr'
      simpa [removeMatchingLoop, Node.row, hid] using hres
    · push_neg at hid
      have hc0 : getNode st.tree (repoPath ++ [k]) = some (Node.mk crow ccs) := by
        have h := hcorr 0 (Node.mk crow ccs) (by simp)
        simpa using h
      have hcrow : rowOk st.enabled crow := by
        have h := hrows (Node.mk crow ccs).row
          (row_mem_of_getNode (repoPath ++ [k]) st.tree (Node.mk crow ccs) hc0)
        simpa [Node.row] using h
      by_cases hen : crow.enabled = true
      · rcases hdis : disable_plugin st (repoPath ++ [k]) with ⟨st1, ev1, res1⟩
        cases res1 with
        | exn e =>
          have hexn : (disable_plugin st (repoPath ++ [k])).2.2 = PyResult.exn e := by
            rw [hdis]
          have hspec := disable_exn_spec st (repoPath ++ [k]) e hexn
          rw [hdis] at hspec
          have hinv1 : enabledHasRecord st1 :=
            enabledHasRecord_of_eq st st1 hspec.2.1 hspec.1 hinv
          have hred : removeMatchingLoop st repoPath (Node.mk crow ccs :: rest') k tid =
              (st1, ev1, PyResult.exn e) := by
            simp [removeMatchingLoop, Node.row, hid, hen, hdis]
          rw [hred]
          exact hinv1
        | ok u =>
          have hok : (disable_plugin st (repoPath ++ [k])).2.2 = PyResult.ok u := by
            rw [hdis]
          obtain ⟨node, hnode, hmem, hstate⟩ := disable_ok_spec st (repoPath ++ [k]) u hok
          have hnodec : node = Node.mk crow ccs := by
            rw [hnode] at hc0
            exact Option.some.inj hc0
          rw [hnodec] at hmem hstate
          simp only [Node.row] at hmem hstate
          have hst1 : st1 = { st with
              pmEnabled := removeFirst st.pmEnabled crow.id,
              enabled := removeFirst st.enabled crow.id,
              tree := modifyRowAt st.tree (repoPath ++ [k])
                (fun r => { r with enabled := false }) } := by
            rw [← hstate, hdis]
          have hnode1 : getNode st1.tree (repoPath ++ [k]) =
              some (Node.mk ({ crow with enabled := false }) ccs) := by
            rw [hst1]
            simp [getNode_modifyRowAt_self, hc0, Node.row, Node.children]
          have hinv1 : enabledHasRecord st1 := by
            intro x hx
            rw [hst1] at hx
            rw [hst1]
            exact hinv x (mem_of_mem_removeFirst _ _ _ hx)
          have hnot1 : ∀ node', getNode st1.tree (repoPath ++ [k]) = some node' →
              node'.row.id ∉ st1.enabled := by
            intro node' hn'
            have heq : node' = Node.mk ({ crow with enabled := false }) ccs := by
              rw [hn'] at hnode1
              exact Option.some.inj hnode1
            rw [heq, hst1]
            simp only [Node.row]
            exact not_mem_removeFirst_self st.enabled crow.id hnodup
          have hinv2 := uninstall_inv st1 (repoPath ++ [k]) hinv1 hnot1
          rcases hun : uninstall_plugin st1 (repoPath ++ [k]) with ⟨st2, ev2, res2⟩
          rw [hun] at hinv2
          cases res2 with
          | exn e2 =>
            have hred : removeMatchingLoop st repoPath (Node.mk crow ccs :: rest') k tid =
                (st2, ev1 ++ ev2, PyResult.exn e2) := by
              simp [removeMatchingLoop, Node.row, hid, hen, hdis, hun]
            rw [hred]
            exact hinv2
          | ok b =>
            have hred : removeMatchingLoop st repoPath (Node.mk crow ccs :: rest') k tid =
                (st2, ev1 ++ ev2, PyResult.ok true) := by
              simp [removeMatchingLoop, Node.row, hid, hen, hdis, hun]
            rw [hred]
            exact hinv2
      · have hnotmem : crow.id ∉ st.enabled := by
          unfold rowOk at hcrow
          by_cases htype : crow.type = RowType.plugin
          · rw [if_pos htype] at hcrow
            intro hmemx
            exact hen (hcrow.mpr hmemx)
          · rw [if_neg htype] at hcrow
            exact absurd hcrow hen
        have hinv2 := uninstall_inv st (repoPath ++ [k]) hinv (fun node' hn' => by
          have heq : node' = Node.mk crow ccs := by
            rw [hn'] at hc0
            exact Option.some.inj hc0
          rw [heq]
          simpa [Node.row] using hnotmem)
        rcases hun : uninstall_plugin st (repoPath ++ [k]) with ⟨st2, ev2, res2⟩
        rw [hun] at hinv2
        cases res2 with
        | exn e2 =>
          have hred : removeMatchingLoop st repoPath (Node.mk crow ccs :: rest') k tid =
              (st2, ev2, PyResult.exn e2) := by
            simp [removeMatchingLoop, Node.row, hid, hen, hun]
          rw [hred]
          exact hinv2
        | ok b =>
          have hred : removeMatchingLoop st repoPath (Node.mk crow ccs :: rest') k tid =
              (st2, ev2, PyResult.ok true) := by
            simp [removeMatchingLoop, Node.row, hid, hen, hun]
          rw [hred]
          exact hinv2

theorem remove_matching_spec (st : WindowState) (p : List Nat)
    (plugin_src : Option InstallSrc) :
    ((remove_matching_plugin st p plugin_src).1.installed = st.installed ∨
      (remove_matching_plugin st p plugin_src).1.installed =
        adel st.installed (rowIdAt st.tree p)) ∧
    ((remove_matching_plugin st p plugin_src).1.enabled = st.enabled ∨
      (remove_matching_plugin st p plugin_src).1.enabled =
        removeFirst st.enabled (rowIdAt st.tree p)) ∧
    ((remove_matching_plugin st p plugin_src).2.2 = PyResult.ok false →
      (remove_matching_plugin st p plugin_src).1 = st) := by
  cases hn : getNode st.tree p with
  | none => simp [remove_matching_plugin, hn]
  | some node =>
    cases hfr : findRepoModel st.tree plugin_src with
    | none => simp [remove_matching_plugin, hn, hfr]
    | some repoPath =>
      cases hrn : getNode st.tree repoPath with
      | none => simp [remove_matching_plugin, hn, hfr, hrn]
      | some repo_model =>
        have hrowid : rowIdAt st.tree p = node.row.id := by simp [rowIdAt, hn]
        rw [hrowid]
        have hred : remove_matching_plugin st p plugin_src =
            removeMatchingLoop st repoPath repo_model.children 0 node.row.id := by
          simp [remove_matching_plugin, hn, hfr, hrn]
        rw [hred]
        apply removeMatchingLoop_spec
        intro j c hj
        rw [Nat.zero_add, getNode_snoc repoPath st.tree j repo_model hrn]
        exact hj

theorem remove_matching_inv (st : WindowState) (p : List Nat)
    (plugin_src : Option InstallSrc)
    (hnodup : st.enabled.Nodup)
    (hrows : ∀ r ∈ allRowsForest st.tree, rowOk st.enabled r)
    (hinv : enabledHasRecord st) :
    enabledHasRecord (remove_matching_plugin st p plugin_src).1 := by
  cases hn : getNode st.tree p with
  | none => simpa [remove_matching_plugin, hn] using hinv
  | some node =>
    cases hfr : findRepoModel st.tree plugin_src with
    | none => simpa [remove_matching_plugin, hn, hfr] using hinv
    | some repoPath =>
      cases hrn : getNode st.tree repoPath with
      | none => simpa [remove_matching_plugin, hn, hfr, hrn] using hinv
      | some repo_model =>
        have hred : remove_matching_plugin st p plugin_src =
            removeMatchingLoop st repoPath repo_model.children 0 node.row.id := by
          simp [remove_matching_plugin, hn, hfr, hrn]
        rw [hred]
        apply removeMatchingLoop_inv st repoPath node.row.id hnodup hrows hinv
        intro j c hj
        rw [Nat.zero_add, getNode_snoc repoPath st.tree j repo_model hrn]
        exact hj

theorem toggledUninstallFinish_state (st : WindowState) (p : List Nat) (nr : NamedRow)
    (ev : List Event) :
    (toggledUninstallFinish st p nr ev).1 = (uninstall_plugin st p).1 := by
  rcases hun : uninstall_plugin st p with ⟨st1, ev2, res2⟩
  cases res2 <;> simp [toggledUninstallFinish, hun]

theorem toggledUninstallBranch_envelope (st : WindowState) (p : List Nat) (node : Node)
    (hn : getNode st.tree p = some node) (cd : Bool) :
    ((toggledUninstallBranch st p node.row cd).1.installed = st.installed ∨
      (toggledUninstallBranch st p node.row cd).1.installed =
        adel st.installed node.row.id) ∧
    ((toggledUninstallBranch st p node.row cd).1.enabled = st.enabled ∨
      (toggledUninstallBranch st p node.row cd).1.enabled =
        removeFirst st.enabled node.row.id) := by
  by_cases hen : node.row.enabled = true
  · by_cases hcd : cd = false
    · subst hcd
      simp [toggledUninstallBranch, hen]
    · have hcd' : cd = true := by simpa using hcd
      subst hcd'
      rcases hdis : disable_plugin st p with ⟨st1, ev1, res1⟩
      cases res1 with
      | exn e =>
        have hexn : (disable_plugin st p).2.2 = PyResult.exn e := by rw [hdis]
        have hspec := disable_exn_spec st p e hexn
        rw [hdis] at hspec
        have hst : (toggledUninstallBranch st p node.row true).1 = st1 := by
          simp [toggledUninstallBranch, hen, hdis]
        rw [hst]
        exact ⟨Or.inl hspec.1, Or.inl hspec.2.1⟩
      | ok u =>
        have hok : (disable_plugin st p).2.2 = PyResult.ok u := by rw [hdis]
        obtain ⟨node2, hnode2, hmem2, hstate2⟩ := disable_ok_spec st p u hok
        have heqn : node2 = node := by
          rw [hnode2] at hn
          exact Option.some.inj hn
        subst heqn
        have hst1 : st1 = { st with
            pmEnabled := removeFirst st.pmEnabled node2.row.id,
            enabled := removeFirst st.enabled node2.row.id,
            tree := modifyRowAt st.tree p (fun r => { r with enabled := false }) } := by
          rw [← hstate2, hdis]
        have hst : (toggledUninstallBranch st p node2.row true).1 =
            (uninstall_plugin st1 p).1 := by
          simp [toggledUninstallBranch, hen, hdis, toggledUninstallFinish_state]
        rw [hst]
        have huspec := uninstall_spec st1 p
        constructor
        · rcases huspec.2.2.1 with h | ⟨node', hn', h⟩
          · left
            rw [h, hst1]
          · right
            rw [h]
            have hnode1 : getNode st1.tree p =
                some (Node.mk ({ node2.row with enabled := false }) node2.children) := by
              rw [hst1]
              simp [getNode_modifyRowAt_self, hnode2, Node.row, Node.children]
            have heq : node' = Node.mk ({ node2.row with enabled := false }) node2.children := by
              rw [hn'] at hnode1
              exact Option.some.inj hnode1
            rw [heq, hst1]
            simp [Node.row]
        · right
          rw [huspec.1, hst1]
  · have hst : (toggledUninstallBranch st p node.row cd).1 = (uninstall_plugin st p).1 := by
      simp [toggledUninstallBranch, hen, toggledUninstallFinish_state]
    rw [hst]
    have huspec := uninstall_spec st p
    constructor
    · rcases huspec.2.2.1 with h | ⟨node', hn', h⟩
      · exact Or.inl h
      · right
        rw [h]
        have heq : node' = node := by
          rw [hn'] at hn
          exact Option.some.inj hn
        rw [heq]
    · exact Or.inl huspec.1

theorem toggledUninstallBranch_inv (st : WindowState) (p : List Nat) (node : Node)
    (hn : getNode st.tree p = some node) (cd : Bool)
    (hnodup : st.enabled.Nodup)
    (hrowOk : rowOk st.enabled node.row)
    (hinv : enabledHasRecord st) :
    enabledHasRecord (toggledUninstallBranch st p node.row cd).1 := by
  by_cases hen : node.row.enabled = true
  · by_cases hcd : cd = false
    · subst hcd
      simpa [toggledUninstallBranch, hen] using hinv
    · have hcd' : cd = true := by simpa using hcd
      subst hcd'
      rcases hdis : disable_plugin st p with ⟨st1, ev1, res1⟩
      cases res1 with
      | exn e =>
        have hexn : (disable_plugin st p).2.2 = PyResult.exn e := by rw [hdis]
        have hspec := disable_exn_spec st p e hexn
        rw [hdis] at hspec
        have hst : (toggledUninstallBranch st p node.row true).1 = st1 := by
          simp [toggledUninstallBranch, hen, hdis]
        rw [hst]
        exact enabledHasRecord_of_eq st st1 hspec.2.1 hspec.1 hinv
      | ok u =>
        have hok : (disable_plugin st p).2.2 = PyResult.ok u := by rw [hdis]
        obtain ⟨node2, hnode2, hmem2, hstate2⟩ := disable_ok_spec st p u hok
        have heqn : node2 = node := by
          rw [hnode2] at hn
          exact Option.some.inj hn
        subst heqn
        have hst1 : st1 = { st with
            pmEnabled := removeFirst st.pmEnabled node2.row.id,
            enabled := removeFirst st.enabled node2.row.id,
            tree := modifyRowAt st.tree p (fun r => { r with enabled := false }) } := by
          rw [← hstate2, hdis]
        have hnode1 : getNode st1.tree p =
            some (Node.mk ({ node2.row with enabled := false }) node2.children) := by
          rw [hst1]
          simp [getNode_modifyRowAt_self, hnode2, Node.row, Node.children]
        have hinv1 : enabledHasRecord st1 := by
          intro x hx
          rw [hst1] at hx
          rw [hst1]
          exact hinv x (mem_of_mem_removeFirst _ _ _ hx)
        have hnot1 : ∀ node', getNode st1.tree p = some node' →
            node'.row.id ∉ st1.enabled := by
          intro node' hn'
          have heq : node' = Node.mk ({ node2.row with enabled := false }) node2.children := by
            rw [hn'] at hnode1
            exact Option.some.inj hnode1
          rw [heq, hst1]
          simp only [Node.row]
          exact not_mem_removeFirst_self st.enabled node2.row.id hnodup
        have h2 := uninstall_inv st1 p hinv1 hnot1
        have hst : (toggledUninstallBranch st p node2.row true).1 =
            (uninstall_plugin st1 p).1 := by
          simp [toggledUninstallBranch, hen, hdis, toggledUninstallFinish_state]
        rw [hst]
        exact h2
  · have hnotmem : node.row.id ∉ st.enabled := by
      unfold rowOk at hrowOk
      by_cases htype : node.row.type = RowType.plugin
      · rw [if_pos htype] at hrowOk
        intro hmemx
        exact hen (hrowOk.mpr hmemx)
      · rw [if_neg htype] at hrowOk
        exact absurd hrowOk hen
    have h2 := uninstall_inv st p hinv (fun node' hn' => by
      have heq : node' = node := by
        rw [hn'] at hn
        exact Option.some.inj hn
      rw [heq]
      exact hnotmem)
    have hst : (toggledUninstallBranch st p node.row cd).1 = (uninstall_plugin st p).1 := by
      simp [toggledUninstallBranch, hen, toggledUninstallFinish_state]
    rw [hst]
    exact h2

theorem installFresh_state (st : WindowState) (p : List Nat)
    (nr cm rm : NamedRow) (ir : InstallResult) (v : String) (la : LoadAllResult)
    (ro : Bool) :
    (installFresh st p nr cm rm ir v la ro).1.enabled = st.enabled ∧
    ((installFresh st p nr cm rm ir v la ro).1.installed = st.installed ∨
      (installFresh st p nr cm rm ir v la ro).1.installed =
        aset st.installed nr.id (some (InstallSrc.mk cm.id rm.id nr.id))) ∧
    (installOutcomeFailed (installFresh st p nr cm rm ir v la ro).2.2 = true →
      (installFresh st p nr cm rm ir v la ro).1 = st) := by
  cases ir <;> simp [installFresh, installOutcomeFailed]

theorem installFresh_inv (st : WindowState) (p : List Nat)
    (nr cm rm : NamedRow) (ir : InstallResult) (v : String) (la : LoadAllResult)
    (ro : Bool) (hinv : enabledHasRecord st) :
    enabledHasRecord (installFresh st p nr cm rm ir v la ro).1 := by
  intro x hx
  have hspec := installFresh_state st p nr cm rm ir v la ro
  rw [hspec.1] at hx
  rcases hspec.2.1 with h | h
  · rw [h]
    exact hinv x hx
  · rw [h]
    exact isSome_alookup_aset _ _ _ _ (hinv x hx)

theorem toggled_install_envelope (st : WindowState) (p : List Nat)
    (cd cr : Bool) (ir : InstallResult) (v : String) (la : LoadAllResult)
    (hfail : installOutcomeFailed
      (signal_renderer_toggled_install st p cd cr ir v la).2.2 = true) :
    ((signal_renderer_toggled_install st p cd cr ir v la).1.installed = st.installed ∨
      (signal_renderer_toggled_install st p cd cr ir v la).1.installed =
        adel st.installed (rowIdAt st.tree p)) ∧
    ((signal_renderer_toggled_install st p cd cr ir v la).1.enabled = st.enabled ∨
      (signal_renderer_toggled_install st p cd cr ir v la).1.enabled =
        removeFirst st.enabled (rowIdAt st.tree p)) := by
  cases hpar : get_plugin_model_parents st.tree p with
  | none => simp [signal_renderer_toggled_install, hpar]
  | some pc =>
    obtain ⟨rm, cm⟩ := pc
    cases hn : getNode st.tree p with
    | none => simp [signal_renderer_toggled_install, hpar, hn]
    | some node =>
      have hrowid : rowIdAt st.tree p = node.row.id := by simp [rowIdAt, hn]
      rw [hrowid]
      by_cases hinst : node.row.installed = true
      · have hred : signal_renderer_toggled_install st p cd cr ir v la =
            toggledUninstallBranch st p node.row cd := by
          simp [signal_renderer_toggled_install, hpar, hn, hinst]
        rw [hred]
        exact toggledUninstallBranch_envelope st p node hn cd
      · cases hrec : alookup st.installed node.row.id with
        | none =>
          have hred : signal_renderer_toggled_install st p cd cr ir v la =
              installFresh st p node.row cm rm ir v la false := by
            simp [signal_renderer_toggled_install, hpar, hn, hinst, hrec]
          rw [hred] at hfail ⊢
          have hspec := installFresh_state st p node.row cm rm ir v la false
          rw [hspec.2.2 hfail]
          exact ⟨Or.inl rfl, Or.inl rfl⟩
        | some plugin_src =>
          by_cases hne : plugin_src ≠ some (InstallSrc.mk cm.id rm.id node.row.id)
          · by_cases hcr : cr = false
            · subst hcr
              have hst : (signal_renderer_toggled_install st p cd false ir v la).1 = st := by
                simp [signal_renderer_toggled_install, hpar, hn, hinst, hrec, hne]
              rw [hst]
              exact ⟨Or.inl rfl, Or.inl rfl⟩
            · have hcr' : cr = true := by simpa using hcr
              subst hcr'
              rcases hrm2 : remove_matching_plugin st p plugin_src with ⟨st1, ev1, res1⟩
              have hspec := remove_matching_spec st p plugin_src
              rw [hrm2, hrowid] at hspec
              cases res1 with
              | exn e =>
                have hst : (signal_renderer_toggled_install st p cd true ir v la).1 = st1 := by
                  simp [signal_renderer_toggled_install, hpar, hn, hinst, hrec, hne, hrm2]
                rw [hst]
                exact ⟨hspec.1, hspec.2.1⟩
              | ok b =>
                cases b with
                | false =>
                  have hst : (signal_renderer_toggled_install st p cd true ir v la).1 = st1 := by
                    simp [signal_renderer_toggled_install, hpar, hn, hinst, hrec, hne, hrm2]
                  have hst1st : st1 = st := hspec.2.2 rfl
                  rw [hst, hst1st]
                  exact ⟨Or.inl rfl, Or.inl rfl⟩
                | true =>
                  rcases hif : installFresh st1 p node.row cm rm ir v la true with ⟨st2, ev2, oc⟩
                  have hst : (signal_renderer_toggled_install st p cd true ir v la).1 = st2 := by
                    simp [signal_renderer_toggled_install, hpar, hn, hinst, hrec, hne, hrm2, hif]
                  have hoc : (signal_renderer_toggled_install st p cd true ir v la).2.2 = oc := by
                    simp [signal_renderer_toggled_install, hpar, hn, hinst, hrec, hne, hrm2, hif]
                  rw [hoc] at hfail
                  have hifspec := installFresh_state st1 p node.row cm rm ir v la true
                  rw [hif] at hifspec
                  have hst2 : st2 = st1 := hifspec.2.2 hfail
                  rw [hst, hst2]
                  exact ⟨hspec.1, hspec.2.1⟩
          · push_neg at hne
            have hred : signal_renderer_toggled_install st p cd cr ir v la =
                installFresh st p node.row cm rm ir v la false := by
              simp [signal_renderer_toggled_install, hpar, hn, hinst, hrec, hne]
            rw [hred] at hfail ⊢
            have hspec := installFresh_state st p node.row cm rm ir v la false
            rw [hspec.2.2 hfail]
            exact ⟨Or.inl rfl, Or.inl rfl⟩

theorem toggled_install_inv (st : WindowState) (p : List Nat)
    (cd cr : Bool) (ir : InstallResult) (v : String) (la : LoadAllResult)
    (hnodup : st.enabled.Nodup)
    (hrows : ∀ r ∈ allRowsForest st.tree, rowOk st.enabled r)
    (hinv : enabledHasRecord st) :
    enabledHasRecord (signal_renderer_toggled_install st p cd cr ir v la).1 := by
  cases hpar : get_plugin_model_parents st.tree p with
  | none => simpa [signal_renderer_toggled_install, hpar] using hinv
  | some pc =>
    obtain ⟨rm, cm⟩ := pc
    cases hn : getNode st.tree p with
    | none => simpa [signal_renderer_toggled_install, hpar, hn] using hinv
    | some node =>
      by_cases hinst : node.row.installed = true
      · have hred : signal_renderer_toggled_install st p cd cr ir v la =
            toggledUninstallBranch st p node.row cd := by
          simp [signal_renderer_toggled_install, hpar, hn, hinst]
        rw [hred]
        exact toggledUninstallBranch_inv st p node hn cd hnodup
          (hrows node.row (row_mem_of_getNode p st.tree node hn)) hinv
      · cases hrec : alookup st.installed node.row.id with
        | none =>
          have hred : signal_renderer_toggled_install st p cd cr ir v la =
              installFresh st p node.row cm rm ir v la false := by
            simp [signal_renderer_toggled_install, hpar, hn, hinst, hrec]
          rw [hred]
          exact installFresh_inv st p node.row cm rm ir v la false hinv
        | some plugin_src =>
          by_cases hne : plugin_src ≠ some (InstallSrc.mk cm.id rm.id node.row.id)
          · by_cases hcr : cr = false
            · subst hcr
              have hst : (signal_renderer_toggled_install st p cd false ir v la).1 = st := by
                simp [signal_renderer_toggled_install, hpar, hn, hinst, hrec, hne]
              rw [hst]
              exact hinv
            · have hcr' : cr = true := by simpa using hcr
              subst hcr'
              rcases hrm2 : remove_matching_plugin st p plugin_src with ⟨st1, ev1, res1⟩
              have hinv1 : enabledHasRecord st1 := by
                have h := remove_matching_inv st p plugin_src hnodup hrows hinv
                rwa [hrm2] at h
              cases res1 with
              | exn e =>
                have hst : (signal_renderer_toggled_install st p cd true ir v la).1 = st1 := by
                  simp [signal_renderer_toggled_install, hpar, hn, hinst, hrec, hne, hrm2]
                rw [hst]
                exact hinv1
              | ok b =>
                cases b with
                | false =>
                  have hst : (signal_renderer_toggled_install st p cd true ir v la).1 = st1 := by
                    simp [signal_renderer_toggled_install, hpar, hn, hinst, hrec, hne, hrm2]
                  rw [hst]
                  exact hinv1
                | true =>
                  rcases hif : installFresh st1 p node.row cm rm ir v la true with ⟨st2, ev2, oc⟩
                  have hst : (signal_renderer_toggled_install st p cd true ir v la).1 = st2 := by
                    simp [signal_renderer_toggled_install, hpar, hn, hinst, hrec, hne, hrm2, hif]
                  rw [hst]
                  have h := installFresh_inv st1 p node.row cm rm ir v la true hinv1
                  rwa [hif] at h
          · push_neg at hne
            have hred : signal_renderer_toggled_install st p cd cr ir v la =
                installFresh st p node.row cm rm ir v la false := by
              simp [signal_renderer_toggled_install, hpar, hn, hinst, hrec, hne]
            rw [hred]
            exact installFresh_inv st p node.row cm rm ir v la false hinv

theorem toggled_enable_unchanged (st : WindowState) (p : List Nat) (regOk : Bool)
    (hfail : enableOutcomeFailed
      (signal_renderer_toggled_enable st p regOk).2.2 = true) :
    (signal_renderer_toggled_enable st p regOk).1.installed = st.installed ∧
    (signal_renderer_toggled_enable st p regOk).1.enabled = st.enabled := by
  cases hn : getNode st.tree p with
  | none => simp [signal_renderer_toggled_enable, hn]
  | some node =>
    by_cases htype : node.row.type = RowType.plugin
    · cases hload : alookup st.pmLoaded node.row.id with
      | none => simp [signal_renderer_toggled_enable, hn, htype, hload]
      | some handle =>
        by_cases herr : (alookup st.moduleErrors node.row.id).isSome = true
        · simp [signal_renderer_toggled_enable, hn, htype, hload, herr]
        · by_cases hen : node.row.enabled = true
          · rcases hdis : disable_plugin st p with ⟨st1, ev1, res1⟩
            cases res1 with
            | exn e =>
              have hexn : (disable_plugin st p).2.2 = PyResult.exn e := by rw [hdis]
              have hspec := disable_exn_spec st p e hexn
              rw [hdis] at hspec
              have hst : (signal_renderer_toggled_enable st p regOk).1 = st1 := by
                simp [signal_renderer_toggled_enable, hn, htype, hload, herr, hen, hdis]
              rw [hst]
              exact ⟨hspec.1, hspec.2.1⟩
            | ok u =>
              have hoc : (signal_renderer_toggled_enable st p regOk).2.2 =
                  EnableOutcome.toggledOff := by
                simp [signal_renderer_toggled_enable, hn, htype, hload, herr, hen, hdis]
              rw [hoc] at hfail
              simp [enableOutcomeFailed] at hfail
          · by_cases hc : handle.is_compatible = false
            · simp [signal_renderer_toggled_enable, hn, htype, hload, herr, hen, hc]
            · by_cases hreg : regOk = false
              · simp [signal_renderer_toggled_enable, hn, htype, hload, herr, hen, hc, hreg]
              · have hreg' : regOk = true := by simpa using hreg
                subst hreg'
                have hoc : (signal_renderer_toggled_enable st p true).2.2 =
                    EnableOutcome.enabledOk := by
                  simp [signal_renderer_toggled_enable, hn, htype, hload, herr, hen, hc]
                rw [hoc] at hfail
                simp [enableOutcomeFailed] at hfail
    · simp [signal_renderer_toggled_enable, hn, htype]

theorem toggled_enable_inv (st : WindowState) (p : List Nat) (regOk : Bool)
    (hld : ∀ x, (alookup st.pmLoaded x).isSome = true →
      (alookup st.installed x).isSome = true)
    (hinv : enabledHasRecord st) :
    enabledHasRecord (signal_renderer_toggled_enable st p regOk).1 := by
  cases hn : getNode st.tree p with
  | none => simpa [signal_renderer_toggled_enable, hn] using hinv
  | some node =>
    by_cases htype : node.row.type = RowType.plugin
    · cases hload : alookup st.pmLoaded node.row.id with
      | none => simpa [signal_renderer_toggled_enable, hn, htype, hload] using hinv
      | some handle =>
        by_cases herr : (alookup st.moduleErrors node.row.id).isSome = true
        · simpa [signal_renderer_toggled_enable, hn, htype, hload, herr] using hinv
        · by_cases hen : node.row.enabled = true
          · have hst : (signal_renderer_toggled_enable st p regOk).1 =
                (disable_plugin st p).1 := by
              rcases hdis : disable_plugin st p with ⟨st1, ev1, res1⟩
              cases res1 <;>
                simp [signal_renderer_toggled_enable, hn, htype, hload, herr, hen, hdis]
            rw [hst]
            exact disable_inv st p hinv
          · by_cases hc : handle.is_compatible = false
            · simpa [signal_renderer_toggled_enable, hn, htype, hload, herr, hen, hc]
                using hinv
            · by_cases hreg : regOk = false
              · simpa [signal_renderer_toggled_enable, hn, htype, hload, herr, hen, hc, hreg]
                  using hinv
              · have hreg' : regOk = true := by simpa using hreg
                subst hreg'
                have hst : (signal_renderer_toggled_enable st p true).1 = { st with
                    pmEnabled := st.pmEnabled ++ [node.row.id],
                    tree := modifyRowAt st.tree p (fun r => { r with enabled := true }),
                    enabled := st.enabled ++ [node.row.id] } := by
                  simp [signal_renderer_toggled_enable, hn, htype, hload, herr, hen, hc]
                rw [hst]
                intro x hx
                rcases List.mem_append.mp hx with h | h
                · exact hinv x h
                · have hxid : x = node.row.id := by simpa using h
                  subst hxid
                  exact hld node.row.id (by simp [hload])
    · simpa [signal_renderer_toggled_enable, hn, htype] using hinv

theorem reload_plugin_config (st : WindowState) (p : List Nat) (sel : Option String)
    (lr : Except String PluginHandle) (regOk : Bool) :
    (reload_plugin st p sel lr regOk).1.installed = st.installed ∧
    (reload_plugin st p sel lr regOk).1.enabled = st.enabled := by
  cases hn : getNode st.tree p with
  | none => simp [reload_plugin, hn]
  | some node =>
    obtain ⟨nrow, ncs⟩ := node
    cases lr with
    | error err => simp [reload_plugin, hn, Node.row]
    | ok klass =>
      by_cases hin : nrow.id ∈ st.pmEnabled <;> by_cases hreg : regOk = true <;>
        simp [reload_plugin, hn, hin, hreg, Node.row]

theorem reload_row_config (st : WindowState) (p : List Nat) (sel : Option String)
    (lr : Except String PluginHandle) (regOk : Bool) :
    (reload_row st p sel lr regOk).1.installed = st.installed ∧
    (reload_row st p sel lr regOk).1.enabled = st.enabled := by
  cases hn : getNode st.tree p with
  | none => simp [reload_row, hn]
  | some node =>
    by_cases htype : node.row.type = RowType.plugin
    · by_cases hinst : node.row.installed = false
      · simp [reload_row, hn, htype, hinst]
      · have hred : reload_row st p sel lr regOk = reload_plugin st p sel lr regOk := by
          simp [reload_row, hn, htype, hinst]
        rw [hred]
        exact reload_plugin_config st p sel lr regOk
    · simp [reload_row, hn, htype]

theorem step_enable_fst (st : WindowState) (p : List Nat) (regOk : Bool) :
    (step st (Transition.enableToggle p regOk)).1 =
      (signal_renderer_toggled_enable st p regOk).1 := by
  rcases h : signal_renderer_toggled_enable st p regOk with ⟨a, b, c⟩
  simp [step, h]

theorem step_enable_out (st : WindowState) (p : List Nat) (regOk : Bool) :
    (step st (Transition.enableToggle p regOk)).2.2 =
      StepOutcome.en (signal_renderer_toggled_enable st p regOk).2.2 := by
  rcases h : signal_renderer_toggled_enable st p regOk with ⟨a, b, c⟩
  simp [step, h]

theorem step_install_fst (st : WindowState) (p : List Nat) (cd cr : Bool)
    (ir : InstallResult) (v : String) (la : LoadAllResult) :
    (step st (Transition.installToggle p cd cr ir v la)).1 =
      (signal_renderer_toggled_install st p cd cr ir v la).1 := by
  rcases h : signal_renderer_toggled_install st p cd cr ir v la with ⟨a, b, c⟩
  simp [step, h]

theorem step_install_out (st : WindowState) (p : List Nat) (cd cr : Bool)
    (ir : InstallResult) (v : String) (la : LoadAllResult) :
    (step st (Transition.installToggle p cd cr ir v la)).2.2 =
      StepOutcome.inst (signal_renderer_toggled_install st p cd cr ir v la).2.2 := by
  rcases h : signal_renderer_toggled_install st p cd cr ir v la with ⟨a, b, c⟩
  simp [step, h]

theorem step_reload_fst (st : WindowState) (p : List Nat) (sel : Option String)
    (lr : Except String PluginHandle) (regOk : Bool) :
    (step st (Transition.reloadPlugin p sel lr regOk)).1 =
      (reload_row st p sel lr regOk).1 := by
  rcases h : reload_row st p sel lr regOk with ⟨a, b, c⟩
  simp [step, h]

/-- Counterexample for C1: plugin "foo" is installed and enabled from
(catA, repoB); toggling the install cell of the same plugin id under
(catC, repoD) confirms the replace, removes the old installation, and the
download of the new copy then fails with a connection error: the
transition failed, yet the Installation Record lost its "foo" entry and
the Enabled Set lost "foo" — not the values held before. -/
theorem C1_counterexample :
    stepFailed (step replaceState replaceTransition).2.2 = true ∧
    (step replaceState replaceTransition).1.installed ≠ replaceState.installed ∧
    (step replaceState replaceTransition).1.enabled ≠ replaceState.enabled := by
  decide

/-- C1 as amended: a failed transition leaves the Installation Record
unchanged, except that the uninstall and replace-from-different-source
flows may already have deleted the toggled plugin's record entry before
the failure; the Enabled Set is likewise unchanged except that those flows
disable the plugin (removing its first occurrence) before the failing
removal or install, and that removal is not rolled back. -/
theorem C1_transition_failure (st : WindowState) (t : Transition)
    (hfail : stepFailed (step st t).2.2 = true) :
    ((step st t).1.installed = st.installed ∨
      (step st t).1.installed = adel st.installed (rowIdAt st.tree (transPath t))) ∧
    ((step st t).1.enabled = st.enabled ∨
      (step st t).1.enabled = removeFirst st.enabled (rowIdAt st.tree (transPath t))) := by
  cases t with
  | enableToggle p regOk =>
    rw [step_enable_out] at hfail
    simp only [stepFailed] at hfail
    rw [step_enable_fst]
    simp only [transPath]
    have h := toggled_enable_unchanged st p regOk hfail
    exact ⟨Or.inl h.1, Or.inl h.2⟩
  | installToggle p cd cr ir v la =>
    rw [step_install_out] at hfail
    simp only [stepFailed] at hfail
    rw [step_install_fst]
    simp only [transPath]
    exact toggled_install_envelope st p cd cr ir v la hfail
  | reloadPlugin p sel lr regOk =>
    rw [step_reload_fst]
    simp only [transPath]
    have h := reload_row_config st p sel lr regOk
    exact ⟨Or.inl h.1, Or.inl h.2⟩

/-- Witness for C1 as amended: a rejected enable (module error present) is
a failed transition and leaves both the Installation Record and the
Enabled Set unchanged. -/
theorem C1_witness :
    stepFailed (step moduleErrorState (Transition.enableToggle [0, 0] true)).2.2 = true ∧
    (((step moduleErrorState (Transition.enableToggle [0, 0] true)).1.installed =
        moduleErrorState.installed ∨
      (step moduleErrorState (Transition.enableToggle [0, 0] true)).1.installed =
        adel moduleErrorState.installed
          (rowIdAt moduleErrorState.tree (transPath (Transition.enableToggle [0, 0] true)))) ∧
    ((step moduleErrorState (Transition.enableToggle [0, 0] true)).1.enabled =
        moduleErrorState.enabled ∨
      (step moduleErrorState (Transition.enableToggle [0, 0] true)).1.enabled =
        removeFirst moduleErrorState.enabled
          (rowIdAt moduleErrorState.tree (transPath (Transition.enableToggle [0, 0] true))))) :=
  ⟨by decide,
    C1_transition_failure moduleErrorState (Transition.enableToggle [0, 0] true) (by decide)⟩

/-- C2: every user transition (enable, disable, install, uninstall,
replace-from-different-source, reload) preserves the invariant that each
member of the persisted Enabled Set has an Installation Record entry,
given a well-formed starting state (no duplicate enabled ids, loaded
plugins have records — `_load_plugins` writes them — and row flags that
mirror the Enabled Set). -/
theorem C2_enabled_subset_installed (st : WindowState) (t : Transition)
    (hwf : stateWf st) (hinv : enabledHasRecord st) :
    enabledHasRecord (step st t).1 := by
  obtain ⟨hnodup, hld, hrows⟩ := hwf
  cases t with
  | enableToggle p regOk =>
    rw [step_enable_fst]
    exact toggled_enable_inv st p regOk hld hinv
  | installToggle p cd cr ir v la =>
    rw [step_install_fst]
    exact toggled_install_inv st p cd cr ir v la hnodup hrows hinv
  | reloadPlugin p sel lr regOk =>
    rw [step_reload_fst]
    have h := reload_row_config st p sel lr regOk
    exact enabledHasRecord_of_eq st _ h.2 h.1 hinv

/-- Witness for C2 at a concrete well-formed state and transition. -/
theorem C2_witness :
    stateWf simpleWfState ∧ enabledHasRecord simpleWfState ∧
    enabledHasRecord (step simpleWfState (Transition.enableToggle [0] true)).1 := by
  have hwf : stateWf simpleWfState := by
    refine ⟨by decide, ?_, ?_⟩
    · intro x hx
      simp [simpleWfState, alookup] at hx
    · intro r hr
      simp [simpleWfState, allRowsForest] at hr
  have hinv : enabledHasRecord simpleWfState := by
    intro x hx
    have hx' : x = "p" := by simpa [simpleWfState] using hx
    subst hx'
    decide
  exact ⟨hwf, hinv,
    C2_enabled_subset_installed simpleWfState (Transition.enableToggle [0] true) hwf hinv⟩

end PluginManagerModel
